import Mathlib

/-!
Verification development for the `sandbox` match simulator.

The Rust sources under `src/sandbox/src/` (`mods.rs`, `events.rs`, `sim.rs`)
are embedded shallowly below: pure functions become Lean functions, the
mutable match/roster/RNG state is threaded explicitly, `f64` draws and
scores are modelled as rationals, and `u8`/`i16`/`usize` counters as
`Nat`/`Int`.  Collaborator types that live outside the excerpted core
(the RNG source, the `Baserunners` slot map, the roster `World`, the
`Game` match-state helpers and the probability-formula library) are
modelled from the specification; each such definition carries a doc
comment starting with `Modelled from the spec:`.
-/

/- The Batteries rational primitives are `@[irreducible]`, which blocks
kernel evaluation of concrete match states; restore the normal reducibility
so that scenario runs can be settled by `decide`. -/
set_option allowUnsafeReducibility true in
attribute [semireducible] Rat.add Rat.sub Rat.mul Rat.inv Rat.ofScientific

namespace Sandbox

/-- Modelled from the spec: the external RNG source (`rng.rs` is outside the
excerpted core).  `next` yields a uniform draw in `[0,1)` and `index n` a
uniform integer in `[0,n)`; both consume exactly one position of a
deterministic stream, so the generator is a pure function of its seed data
and its position. -/
structure Rng where
  floats : Nat → ℚ
  ints : Nat → Nat
  pos : Nat

def Rng.next (r : Rng) : ℚ × Rng :=
  (r.floats r.pos, { r with pos := r.pos + 1 })

def Rng.index (r : Rng) (n : Nat) : Nat × Rng :=
  (r.ints r.pos % n, { r with pos := r.pos + 1 })

/-- The modifier enumeration of `mods.rs` (`enum Mod`). -/
inductive Mod where
  | TargetedShame | Flinch | Mild | Reverberating | Fireproof | Soundproof
  | Shelled | LifeOfTheParty | Gravity | NightVision | FourthStrike | DebtU
  | Unstable | Superallergic | Spicy | HeatingUp | RedHot | Minimized
  | Electric | RefinancedDebt | Flickering | Stable | HomeFieldAdvantage
  | BaseInstincts | AffinityForCrows | Growth | ConsolidatedDebt | Repeating
  | FifthBase | Charm | SuperFlickering | Squiddish | Siphon | FriendOfCrows
  | FireEater | Magmatic | HoneyRoasted | Traveling | Haunted | Sealant
  | Blaserunning | BirdSeed | Superyummy | Overperforming | Underperforming
  | WalkInThePark | ONo | Wired | Tired | FreeRefill | TripleThreat | Perk
  | Elsewhere | Scattered | Flippers | Earlbirds | LateToTheParty | Roaming
  | HardBoiled | Undersea | Ambush
  deriving DecidableEq

/-- The lifetime scopes of `mods.rs` (`enum ModLifetime`). -/
inductive ModLifetime where
  | Game | Week | Season | LegendaryItem | Permanent
  deriving DecidableEq

/-- `struct ModWithLifetime` of `mods.rs`. -/
structure ModWithLifetime where
  lifetime : ModLifetime
  the_mod : Mod
  deriving DecidableEq

/-- `struct Mods` of `mods.rs`: the per-entity modifier collection. -/
structure Mods where
  mods : List ModWithLifetime
  deriving DecidableEq

def Mods.new : Mods := { mods := [] }

/-- `Mods::has`. -/
def Mods.has (ms : Mods) (m : Mod) : Bool :=
  ms.mods.any (fun x => x.the_mod = m)

/-- `Mods::add`: pushes the (lifetime, mod) entry unless that exact entry is
already present (`Vec::contains` compares both fields). -/
def Mods.add (ms : Mods) (m : Mod) (lifetime : ModLifetime) : Mods :=
  let ml : ModWithLifetime := { the_mod := m, lifetime := lifetime }
  if ml ∈ ms.mods then ms else { mods := ms.mods ++ [ml] }

/-- `Mods::remove`: retains every entry whose modifier differs from `m`. -/
def Mods.remove (ms : Mods) (m : Mod) : Mods :=
  { mods := ms.mods.filter (fun x => x.the_mod ≠ m) }

/-- `Mods::clear_game`. -/
def Mods.clear_game (ms : Mods) : Mods :=
  { mods := ms.mods.filter (fun x => x.lifetime ≠ ModLifetime.Game) }

/-- `Mods::clear_weekly`. -/
def Mods.clear_weekly (ms : Mods) : Mods :=
  { mods := ms.mods.filter (fun x => x.lifetime ≠ ModLifetime.Week) }

/-- `Mods::clear_season`. -/
def Mods.clear_season (ms : Mods) : Mods :=
  { mods := ms.mods.filter (fun x => x.lifetime ≠ ModLifetime.Season) }

/-- `Mods::clear_legendary_item`. -/
def Mods.clear_legendary_item (ms : Mods) : Mods :=
  { mods := ms.mods.filter (fun x => x.lifetime ≠ ModLifetime.LegendaryItem) }

/-- The operations through which a `Mods` value can evolve (`add`, `remove`
and the four external scope-clear triggers). -/
inductive ModOp where
  | addOp (m : Mod) (lifetime : ModLifetime)
  | removeOp (m : Mod)
  | clearGameOp
  | clearWeeklyOp
  | clearSeasonOp
  | clearItemOp

def Mods.applyOp (ms : Mods) : ModOp → Mods
  | ModOp.addOp m l => ms.add m l
  | ModOp.removeOp m => ms.remove m
  | ModOp.clearGameOp => ms.clear_game
  | ModOp.clearWeeklyOp => ms.clear_weekly
  | ModOp.clearSeasonOp => ms.clear_season
  | ModOp.clearItemOp => ms.clear_legendary_item

def Mods.runOps (ms : Mods) : List ModOp → Mods
  | [] => ms
  | op :: ops => (ms.applyOp op).runOps ops

/-- `struct Events` of `events.rs`: the append-only tag log. -/
structure Events where
  events : List String
  deriving DecidableEq

def Events.new : Events := { events := [] }

/-- `Events::add`: `Vec::push`, i.e. append at the newest end. -/
def Events.add (es : Events) (repr : String) : Events :=
  { events := es.events ++ [repr] }

/-- `Events::len`. -/
def Events.len (es : Events) : Nat :=
  es.events.length

/-- `Events::last`.  The source panics on an empty log; the empty case is
modelled as `none`. -/
def Events.last (es : Events) : Option String :=
  es.events.getLast?

/-- Backward scan of `Events::has` over the reversed log; `half_innings`
counts entries equal to the literal `"inningSwitch"` exactly as the source
writes it. -/
def Events.hasAux (s : String) (limit : Int) : List String → Int → Bool
  | [], _ => false
  | ev :: rest, half_innings =>
    if ev = s then true
    else if limit ≠ -1 ∧ ev = "inningSwitch" then
      if half_innings < limit then Events.hasAux s limit rest (half_innings + 1)
      else false
    else Events.hasAux s limit rest half_innings

/-- `Events::has`: scans from the newest entry backward. -/
def Events.has (es : Events) (s : String) (limit : Int) : Bool :=
  Events.hasAux s limit es.events.reverse 0

/-- Backward scan of `Events::count` (the `u8` counter is modelled as `Nat`). -/
def Events.countAux (s : String) (limit : Int) : List String → Int → Nat → Nat
  | [], _, counter => counter
  | ev :: rest, half_innings, counter =>
    if ev = s then Events.countAux s limit rest half_innings (counter + 1)
    else if ev = "inningSwitch" ∧ limit ≠ -1 then
      if half_innings < limit then Events.countAux s limit rest (half_innings + 1) counter
      else counter
    else Events.countAux s limit rest half_innings counter

/-- `Events::count`. -/
def Events.count (es : Events) (s : String) (limit : Int) : Nat :=
  Events.countAux s limit es.events.reverse 0 0

/-- Backward scan of `Events::streak_multiple`. -/
def Events.streakAux (strvec : List String) (limit : Int) : List String → Int → Nat → Nat
  | [], _, counter => counter
  | ev :: rest, half_innings, counter =>
    if ev = "inningSwitch" ∧ limit ≠ -1 then
      if half_innings < limit then Events.streakAux strvec limit rest (half_innings + 1) counter
      else counter
    else
      Events.streakAux strvec limit rest half_innings
        (counter + (strvec.filter (fun s => ev = s)).length)

/-- `Events::streak_multiple`. -/
def Events.streak_multiple (es : Events) (strvec : List String) (limit : Int) : Nat :=
  Events.streakAux strvec limit es.events.reverse 0 0

/-- The weather enumeration (matched exhaustively by `WeatherPlugin::tick`). -/
inductive Weather where
  | Sun | Eclipse | Peanuts | Birds | Feedback | Reverb | Blooddrain | Sun2
  | BlackHole | Salmon | Coffee | Coffee2 | Coffee3 | Flooding | PolarityPlus
  | PolarityMinus | SunPointOne | SumSun | Night
  deriving DecidableEq

/-- Modelled from the spec: one occupant of the external `Baserunners` slot
map (`bases.rs` is outside the excerpted core), a (base, occupant) pair. -/
structure Runner where
  base : Nat
  id : Nat
  deriving DecidableEq

/-- Modelled from the spec: the external `Baserunners` type of §3 — a
base-indexed slot map with at most one occupant per base and a configurable
base count. -/
structure Baserunners where
  bases : Nat
  runners : List Runner
  deriving DecidableEq

/-- Modelled from the spec: `Baserunners::new` with the configured base count. -/
def Baserunners.new (bases : Nat) : Baserunners :=
  { bases := bases, runners := [] }

/-- Modelled from the spec: add an occupant at a base. -/
def Baserunners.addR (brs : Baserunners) (base : Nat) (id : Nat) : Baserunners :=
  { brs with runners := brs.runners ++ [{ base := base, id := id }] }

/-- Modelled from the spec: remove the occupant of a base. -/
def Baserunners.removeR (brs : Baserunners) (base : Nat) : Baserunners :=
  { brs with runners := brs.runners.filter (fun r => r.base ≠ base) }

/-- Modelled from the spec: advance the occupant of one base by one base. -/
def Baserunners.advance (brs : Baserunners) (base : Nat) : Baserunners :=
  let f := fun (r : Runner) => if r.base = base then { r with base := r.base + 1 } else r
  { brs with runners := brs.runners.map f }

/-- Modelled from the spec: advance every occupant by `n` bases. -/
def Baserunners.advance_all (brs : Baserunners) (n : Nat) : Baserunners :=
  { brs with runners := brs.runners.map (fun r => { r with base := r.base + n }) }

/-- Modelled from the spec: advance every occupant satisfying the predicate
by one base. -/
def Baserunners.advance_if (brs : Baserunners) (p : Runner → Bool) : Baserunners :=
  let f := fun (r : Runner) => if p r then { r with base := r.base + 1 } else r
  { brs with runners := brs.runners.map f }

/-- Modelled from the spec: is the base occupied. -/
def Baserunners.occupied (brs : Baserunners) (base : Nat) : Bool :=
  brs.runners.any (fun r => r.base = base)

/-- Modelled from the spec: is the slot map empty. -/
def Baserunners.empty (brs : Baserunners) : Bool :=
  brs.runners.isEmpty

/-- Modelled from the spec: does some base hold this occupant. -/
def Baserunners.contains (brs : Baserunners) (id : Nat) : Bool :=
  brs.runners.any (fun r => r.id = id)

/-- Modelled from the spec: the occupant of a base, when occupied. -/
def Baserunners.at (brs : Baserunners) (base : Nat) : Option Nat :=
  (brs.runners.find? (fun r => r.base = base)).map (fun r => r.id)

/-- Modelled from the spec: a runner can advance when the next base is free. -/
def Baserunners.can_advance (brs : Baserunners) (base : Nat) : Bool :=
  !brs.occupied (base + 1)

/-- Helper for the lead-runner-first iteration order: insert keeping the
list sorted by base, descending. -/
def Runner.insertDesc (x : Runner) : List Runner → List Runner
  | [] => [x]
  | y :: ys => if x.base ≤ y.base then y :: Runner.insertDesc x ys else x :: y :: ys

/-- Modelled from the spec: iterate the (base, occupant) pairs from the lead
runner down (§4.2 runner-advancement rolls run lead runner first). -/
def Baserunners.iter (brs : Baserunners) : List Runner :=
  brs.runners.foldr Runner.insertDesc []

/-- Modelled from the spec: number of occupants. -/
def Baserunners.lenR (brs : Baserunners) : Nat :=
  brs.runners.length

/-- Floor of a rational draw scaled to a list index. -/
def ratIdx (roll : ℚ) (n : Nat) : Nat :=
  (roll * (n : ℚ)).floor.toNat

/-- Modelled from the spec: pick a random occupied base from a uniform draw
(one of the two occupied-base selection biases of §3). -/
def Baserunners.pick_runner (brs : Baserunners) (roll : ℚ) : Nat :=
  ((brs.iter.getD (ratIdx roll brs.lenR) { base := 0, id := 0 }).base)

/-- Modelled from the spec: the fielder's-choice selection bias — the lead
occupied base. -/
def Baserunners.pick_runner_fc (brs : Baserunners) : Nat :=
  ((brs.iter.headD { base := 0, id := 0 }).base)

/-- Modelled from the spec: forced advancement on a walk — a runner moves up
exactly when every base from 0 up to his own is occupied. -/
def Baserunners.walk (brs : Baserunners) : Baserunners :=
  let f := fun (r : Runner) =>
    if (List.range (r.base + 1)).all (fun b => brs.occupied b)
    then { r with base := r.base + 1 } else r
  { brs with runners := brs.runners.map f }

/-- Modelled from the spec: forced advancement when the batter is placed
directly at second (or third) base by Base Instincts — a runner moves up
exactly when every base from the batter's landing base up to his own is
occupied. -/
def Baserunners.walk_instincts (brs : Baserunners) (third : Bool) : Baserunners :=
  let t := if third then 2 else 1
  let f := fun (r : Runner) =>
    if t ≤ r.base ∧ (List.range (r.base + 1 - t)).all (fun b => brs.occupied (t + b))
    then { r with base := r.base + 1 } else r
  { brs with runners := brs.runners.map f }

/-- Modelled from the spec: clear the slot map. -/
def Baserunners.clear (brs : Baserunners) : Baserunners :=
  { brs with runners := [] }

/-- Modelled from the spec: a rostered player of the external Roster Store
(`entities.rs` is outside the excerpted core), with the fields the core
reads and writes. -/
structure Player where
  id : Nat
  name : String
  mods : Mods
  feed : Events
  team : Option Nat
  swept_on : Option Nat
  scattered_letters : Nat
  attrs : List ℚ
  deriving DecidableEq

def defaultPlayer : Player :=
  { id := 0, name := "", mods := Mods.new, feed := Events.new, team := none,
    swept_on := none, scattered_letters := 0, attrs := List.replicate 26 0 }

/-- Modelled from the spec: apply a fixed-width additive boost vector to the
player's attribute snapshot. -/
def Player.boost (p : Player) (boosts : List ℚ) : Player :=
  { p with attrs := (p.attrs.zip boosts).map (fun q => q.fst + q.snd) ++
      p.attrs.drop boosts.length }

/-- Modelled from the spec: the per-player run-value adjustment read by the
scoring paths; its formula lives outside the excerpted core. -/
def Player.get_run_value (_p : Player) : ℚ := 0

/-- Modelled from the spec: `Player::new` rolls a fresh replacement player
from the RNG (one draw consumed here); rolled players carry the empty name
that `Event::apply` uses to recognize them. -/
def Player.new (r : Rng) : Player × Rng :=
  let (_, r1) := r.next
  (defaultPlayer, r1)

/-- Modelled from the spec: a team record of the external Roster Store. -/
structure Team where
  id : Nat
  name : String
  lineup : List Nat
  rotation : List Nat
  shadows : List Nat
  mods : Mods
  wins : Int
  losses : Int
  postseason_wins : Int
  postseason_losses : Int
  partying : Bool
  deriving DecidableEq

def defaultTeam : Team :=
  { id := 0, name := "", lineup := [], rotation := [], shadows := [],
    mods := Mods.new, wins := 0, losses := 0, postseason_wins := 0,
    postseason_losses := 0, partying := false }

/-- Modelled from the spec: reorder lineup/rotation slots according to a
reverb roll; the exact shuffle lives outside the excerpted core, so the
roster lists are left untouched here. -/
def Team.apply_reverb_changes (t : Team) (_reverb_type : Nat) (_changes : List Nat) : Team :=
  t

/-- Modelled from the spec: the weighted reverb-change roll of the Roster
Store (external); its draws live outside the excerpted core. -/
def Team.roll_reverb_changes (_t : Team) (r : Rng) (_reverb_type : Nat)
    (_gravity : List Nat) : List Nat × Rng :=
  ([], r)

/-- Modelled from the spec: the external Roster Store (`World`), id-keyed
storage for players and teams plus the hall used for inhabiting rolls. -/
structure World where
  players : List (Nat × Player)
  teams : List (Nat × Team)
  hall : List Nat
  season_ruleset : Nat

/-- Modelled from the spec: id lookup.  An unknown id is a fatal
"entity not found" condition in the source; it is modelled by a default
player, so statements are only meaningful on well-formed worlds. -/
def World.player (w : World) (id : Nat) : Player :=
  ((w.players.find? (fun q => q.fst = id)).map (fun q => q.snd)).getD defaultPlayer

/-- Modelled from the spec: mutate one player in place. -/
def World.updPlayer (w : World) (id : Nat) (f : Player → Player) : World :=
  { w with players := w.players.map (fun q => if q.fst = id then (q.fst, f q.snd) else q) }

/-- Modelled from the spec: team id lookup (fatal on unknown ids in the
source, defaulted here). -/
def World.team (w : World) (id : Nat) : Team :=
  ((w.teams.find? (fun q => q.fst = id)).map (fun q => q.snd)).getD defaultTeam

/-- Modelled from the spec: mutate one team in place. -/
def World.updTeam (w : World) (id : Nat) (f : Team → Team) : World :=
  { w with teams := w.teams.map (fun q => if q.fst = id then (q.fst, f q.snd) else q) }

/-- Modelled from the spec: a uniform pick from the hall of former players. -/
def World.random_hall_player (w : World) (r : Rng) : Nat × Rng :=
  let (i, r1) := r.index w.hall.length
  (w.hall.getD i 0, r1)

/-- Modelled from the spec: store a rolled replacement player on the
incinerated player's team and return its fresh id. -/
def World.add_rolled_player (w : World) (p : Player) (team : Nat) : World × Nat :=
  let newId := 1 + (w.players.map (fun q => q.fst)).foldr max 0
  ({ w with players := w.players ++ [(newId, { p with id := newId, team := some team })] },
   newId)

/-- Modelled from the spec: swap one roster slot occupant for a replacement
in every lineup/rotation position that held it. -/
def World.replace_player (w : World) (target : Nat) (repl : Nat) : World :=
  { w with teams := w.teams.map (fun q =>
      (q.fst, { q.snd with
        lineup := q.snd.lineup.map (fun x => if x = target then repl else x),
        rotation := q.snd.rotation.map (fun x => if x = target then repl else x) })) }

/-- Modelled from the spec: swap a player with a hall player — the target's
roster slots pass to the replacement and the target departs to the hall. -/
def World.swap_hall (w : World) (target : Nat) (repl : Nat) : World :=
  let w1 := w.replace_player target repl
  { w1 with hall := target :: w1.hall.filter (fun x => x ≠ repl) }

/-- Modelled from the spec: swap two players' roster slots (feedback). -/
def World.swap (w : World) (a : Nat) (b : Nat) : World :=
  { w with teams := w.teams.map (fun q =>
      (q.fst, { q.snd with
        lineup := q.snd.lineup.map (fun x => if x = a then b else if x = b then a else x),
        rotation := q.snd.rotation.map (fun x => if x = a then b else if x = b then a else x) })) }

/-- Modelled from the spec: one side's team-in-match state (§3). -/
structure GameTeam where
  id : Nat
  score : ℚ
  batter : Option Nat
  pitcher : Nat
  batter_index : Nat
  deriving DecidableEq

/-- Modelled from the spec: the scoreboard holding both sides and the
top/bottom half flag. -/
structure Scoreboard where
  home_team : GameTeam
  away_team : GameTeam
  top : Bool
  deriving DecidableEq

/-- Modelled from the spec: the batting side (away bats in the top half). -/
def Scoreboard.batting_team (sb : Scoreboard) : GameTeam :=
  if sb.top then sb.away_team else sb.home_team

/-- Modelled from the spec: the fielding side. -/
def Scoreboard.pitching_team (sb : Scoreboard) : GameTeam :=
  if sb.top then sb.home_team else sb.away_team

def Scoreboard.updBatting (sb : Scoreboard) (f : GameTeam → GameTeam) : Scoreboard :=
  if sb.top then { sb with away_team := f sb.away_team }
  else { sb with home_team := f sb.home_team }

def Scoreboard.updPitching (sb : Scoreboard) (f : GameTeam → GameTeam) : Scoreboard :=
  if sb.top then { sb with home_team := f sb.home_team }
  else { sb with away_team := f sb.away_team }

/-- Modelled from the spec: the match state of §3 (the `Game` type lives in
the crate root, outside the excerpted core).  Count fields use `Int`
because event application can push them below zero (`Zap`, blooddrain). -/
structure Game where
  events : Events
  started : Bool
  inning : Int
  outs : Int
  balls : Int
  strikes : Int
  weather : Weather
  polarity : Bool
  day : Nat
  linescore_home : List ℚ
  linescore_away : List ℚ
  salmon_resets_inning : Nat
  scoring_plays_inning : Nat
  runners : Baserunners
  scoreboard : Scoreboard
  multiplier_data : Nat

def Game.batter (g : Game) : Option Nat :=
  g.scoreboard.batting_team.batter

def Game.pitcher (g : Game) : Nat :=
  g.scoreboard.pitching_team.pitcher

def Game.updBatting (g : Game) (f : GameTeam → GameTeam) : Game :=
  { g with scoreboard := g.scoreboard.updBatting f }

def Game.updPitching (g : Game) (f : GameTeam → GameTeam) : Game :=
  { g with scoreboard := g.scoreboard.updPitching f }

/-- Modelled from the spec: the configured base count — 4, or 5 under the
extra-base modifier (§3). -/
def Game.get_bases (g : Game) (w : World) : Nat :=
  if (w.team g.scoreboard.batting_team.id).mods.has Mod.FifthBase then 5 else 4

/-- Modelled from the spec: the strikeout threshold — 3, or 4 under the
extra-strike modifier. -/
def Game.get_max_strikes (g : Game) (w : World) : Int :=
  if (w.team g.scoreboard.batting_team.id).mods.has Mod.FourthStrike then 4 else 3

/-- Modelled from the spec: the walk threshold (4 balls). -/
def Game.get_max_balls (_g : Game) (_w : World) : Int := 4

/-- Modelled from the spec: the value of one run, negated under the polarity
flag. -/
def Game.get_run_value (g : Game) : ℚ :=
  if g.polarity then -1 else 1

/-- Modelled from the spec: the shared scoring routine (§4.3) — every runner
advanced past the last base is counted as a run for the batting side and
removed, in that order. -/
def Game.score (g : Game) (w : World) : Game :=
  let nb := g.get_bases w
  let scored := g.runners.runners.filter (fun r => decide (nb ≤ r.base))
  let g1 := { g with runners :=
    { g.runners with runners := g.runners.runners.filter (fun r => decide (r.base < nb)) } }
  if scored.isEmpty then g1
  else
    let g2 := g1.updBatting (fun t =>
      { t with score := t.score + (scored.length : ℚ) * g.get_run_value })
    { g2 with scoring_plays_inning := g2.scoring_plays_inning + 1 }

/-- Modelled from the spec: the base-compaction pass that always follows the
scoring step, sweeping any occupant beyond the last base. -/
def Game.base_sweep (g : Game) (w : World) : Game :=
  let nb := g.get_bases w
  { g with runners :=
    { g.runners with runners := g.runners.runners.filter (fun r => decide (r.base < nb)) } }

/-- Modelled from the spec: end of a plate appearance — reset the ball and
strike counts and advance the batting side's batter order (§4.3). -/
def Game.end_pa (g : Game) : Game :=
  let g1 := { g with balls := 0, strikes := 0 }
  g1.updBatting (fun t => { t with batter := none, batter_index := t.batter_index + 1 })

/-- Modelled from the spec: the derived-modifier snapshot fed to the
probability formulas; recomputed by every `apply` call. -/
def Game.compute_multiplier_data (g : Game) (w : World) : Nat :=
  (w.player ((g.batter).getD 0)).mods.mods.length +
    (w.player g.pitcher).mods.mods.length

/-- Modelled from the spec: the cache-invalidation step ending every
`apply` call. -/
def Game.update_multiplier_data (g : Game) (w : World) : Game :=
  { g with multiplier_data := g.compute_multiplier_data w }

/-- Modelled from the spec: pick a fielder from the fielding lineup with a
uniform draw. -/
def Game.pick_fielder (g : Game) (w : World) (roll : ℚ) : Nat :=
  let lineup := (w.team g.scoreboard.pitching_team.id).lineup
  lineup.getD (ratIdx roll lineup.length) 0

/-- Modelled from the spec: the weighted pick over eligible on-field
players used by weather rolls; eligibility is the caller's predicate, the
weighting details live outside the excerpted core. -/
def Game.pick_player_weighted (g : Game) (w : World) (roll : ℚ)
    (pred : Nat → Bool) (_batting_bias : Bool) : Nat :=
  let home := w.team g.scoreboard.home_team.id
  let away := w.team g.scoreboard.away_team.id
  let pool := (home.lineup ++ [g.scoreboard.home_team.pitcher] ++
      away.lineup ++ [g.scoreboard.away_team.pitcher]).filter pred
  pool.getD (ratIdx roll pool.length) 0

/-- Modelled from the spec: install a new active batter. -/
def Game.assign_batter (g : Game) (id : Nat) : Game :=
  g.updBatting (fun t => { t with batter := some id })

/-- Modelled from the spec: install a new active pitcher. -/
def Game.assign_pitcher (g : Game) (id : Nat) : Game :=
  g.updPitching (fun t => { t with pitcher := id })

def Game.updHome (g : Game) (f : GameTeam → GameTeam) : Game :=
  { g with scoreboard := { g.scoreboard with home_team := f g.scoreboard.home_team } }

def Game.updAway (g : Game) (f : GameTeam → GameTeam) : Game :=
  { g with scoreboard := { g.scoreboard with away_team := f g.scoreboard.away_team } }

/-- The per-stat-class boost vector built inside the `Blooddrain` arm of
`Event::apply` (stat 0: pitching 8..14, 1: batting 0..8, 2: defense 19..24,
3: baserunning 14..19). -/
def statBoosts (stat : Nat) (v : ℚ) : List ℚ :=
  let idxs : List Nat :=
    if stat = 0 then List.range' 8 6
    else if stat = 1 then List.range' 0 8
    else if stat = 2 then List.range' 19 5
    else if stat = 3 then List.range' 14 5
    else []
  (List.range 26).map (fun i => if i ∈ idxs then v else 0)

/-- The closed event union of `events.rs` (`enum Event`).  `Uuid` fields are
modelled as `Nat`, `u8`/`usize` as `Nat`, `i16` as `Int`, `Vec<f64>` as
`List ℚ`. -/
inductive Event where
  | BatterUp (batter : Nat)
  | InningSwitch (inning : Int) (top : Bool)
  | GameOver
  | Ball
  | Strike
  | Foul
  | Strikeout
  | Walk
  | HomeRun
  | BaseHit (bases : Nat) (runners_after : Baserunners)
  | GroundOut (fielder : Nat) (runners_after : Baserunners)
  | Flyout (fielder : Nat) (runners_after : Baserunners)
  | DoublePlay (runners_after : Baserunners)
  | FieldersChoice (runners_after : Baserunners)
  | BaseSteal (runner : Nat) (base_from : Nat) (base_to : Nat)
  | CaughtStealing (runner : Nat) (base_from : Nat)
  | Party (target : Nat) (boosts : List ℚ)
  | Incineration (target : Nat) (replacement : Player) (chain : Option Nat)
  | Peanut (target : Nat) (yummy : Bool)
  | Birds
  | Feedback (target1 : Nat) (target2 : Nat)
  | Reverb (reverb_type : Nat) (team : Nat) (changes : List Nat)
  | Blooddrain (drainer : Nat) (target : Nat) (stat : Nat) (siphon : Bool) (siphon_effect : Int)
  | Sun2 (home_team : Bool)
  | BlackHole (home_team : Bool)
  | Salmon (home_runs_lost : Bool) (away_runs_lost : Bool)
  | PolaritySwitch
  | NightShift (batter : Bool) (replacement : Nat) (replacement_idx : Nat) (boosts : List ℚ)
  | Fireproof (target : Nat)
  | Soundproof (resists : Nat) (tangled : Nat) (decreases : List ℚ)
  | Reverberating (batter : Nat)
  | Shelled (batter : Nat)
  | HitByPitch (target : Nat) (hbp_type : Nat)
  | PeckedFree (player : Nat)
  | IffeyJr (target : Nat)
  | Zap (batter : Bool)
  | InstinctWalk (third : Bool)
  | BigPeanut (target : Nat)
  | CharmWalk
  | CharmStrikeout
  | MildPitch
  | MildWalk
  | Repeating (batter : Nat)
  | FireEater (target : Nat)
  | MagmaticHomeRun
  | CrowAmbush
  | TasteTheInfinite (target : Nat)
  | Inhabiting (batter : Nat) (inhabit : Nat)
  | BlockedDrain (drainer : Nat) (target : Nat)
  | Performing (overperforming : List Nat) (underperforming : List Nat)
  | Beaned
  | PouredOver
  | TripleThreat
  | TripleThreatDeactivation (home : Bool) (away : Bool)
  | Swept (elsewhere : List Nat)
  | Elsewhere (batter : Nat)
  | ElsewhereReturn (returned : List Nat) (letters : List Nat)
  | Unscatter (unscattered : List Nat)

/-- `Event::repr`: the stable textual tag of each event — the strum
`Display` derive renders the bare variant name. -/
def Event.repr : Event → String
  | Event.BatterUp _ => "BatterUp"
  | Event.InningSwitch _ _ => "InningSwitch"
  | Event.GameOver => "GameOver"
  | Event.Ball => "Ball"
  | Event.Strike => "Strike"
  | Event.Foul => "Foul"
  | Event.Strikeout => "Strikeout"
  | Event.Walk => "Walk"
  | Event.HomeRun => "HomeRun"
  | Event.BaseHit _ _ => "BaseHit"
  | Event.GroundOut _ _ => "GroundOut"
  | Event.Flyout _ _ => "Flyout"
  | Event.DoublePlay _ => "DoublePlay"
  | Event.FieldersChoice _ => "FieldersChoice"
  | Event.BaseSteal _ _ _ => "BaseSteal"
  | Event.CaughtStealing _ _ => "CaughtStealing"
  | Event.Party _ _ => "Party"
  | Event.Incineration _ _ _ => "Incineration"
  | Event.Peanut _ _ => "Peanut"
  | Event.Birds => "Birds"
  | Event.Feedback _ _ => "Feedback"
  | Event.Reverb _ _ _ => "Reverb"
  | Event.Blooddrain _ _ _ _ _ => "Blooddrain"
  | Event.Sun2 _ => "Sun2"
  | Event.BlackHole _ => "BlackHole"
  | Event.Salmon _ _ => "Salmon"
  | Event.PolaritySwitch => "PolaritySwitch"
  | Event.NightShift _ _ _ _ => "NightShift"
  | Event.Fireproof _ => "Fireproof"
  | Event.Soundproof _ _ _ => "Soundproof"
  | Event.Reverberating _ => "Reverberating"
  | Event.Shelled _ => "Shelled"
  | Event.HitByPitch _ _ => "HitByPitch"
  | Event.PeckedFree _ => "PeckedFree"
  | Event.IffeyJr _ => "IffeyJr"
  | Event.Zap _ => "Zap"
  | Event.InstinctWalk _ => "InstinctWalk"
  | Event.BigPeanut _ => "BigPeanut"
  | Event.CharmWalk => "CharmWalk"
  | Event.CharmStrikeout => "CharmStrikeout"
  | Event.MildPitch => "MildPitch"
  | Event.MildWalk => "MildWalk"
  | Event.Repeating _ => "Repeating"
  | Event.FireEater _ => "FireEater"
  | Event.MagmaticHomeRun => "MagmaticHomeRun"
  | Event.CrowAmbush => "CrowAmbush"
  | Event.TasteTheInfinite _ => "TasteTheInfinite"
  | Event.Inhabiting _ _ => "Inhabiting"
  | Event.BlockedDrain _ _ => "BlockedDrain"
  | Event.Performing _ _ => "Performing"
  | Event.Beaned => "Beaned"
  | Event.PouredOver => "PouredOver"
  | Event.TripleThreat => "TripleThreat"
  | Event.TripleThreatDeactivation _ _ => "TripleThreatDeactivation"
  | Event.Swept _ => "Swept"
  | Event.Elsewhere _ => "Elsewhere"
  | Event.ElsewhereReturn _ _ => "ElsewhereReturn"
  | Event.Unscatter _ => "Unscatter"

/-- Record an event tag on a player's rolling feed. -/
def World.feedAdd (w : World) (id : Nat) (repr : String) : World :=
  w.updPlayer id (fun p => { p with feed := p.feed.add repr })

/-- `upgrade_spicy` of `events.rs`. -/
def upgrade_spicy (g : Game) (w : World) : World :=
  let bid := (g.batter).getD 0
  let batter := w.player bid
  if batter.mods.has Mod.Spicy ∧
      batter.feed.streak_multiple ["BaseHit", "HomeRun"] (-1) = 1 then
    w.updPlayer bid (fun p =>
      { p with mods := p.mods.add Mod.HeatingUp ModLifetime.Permanent })
  else if batter.mods.has Mod.HeatingUp then
    w.updPlayer bid (fun p =>
      { p with mods := (p.mods.remove Mod.HeatingUp).add Mod.RedHot ModLifetime.Permanent })
  else
    w

/-- `downgrade_spicy` of `events.rs`. -/
def downgrade_spicy (g : Game) (w : World) : World :=
  let bid := (g.batter).getD 0
  let batter := w.player bid
  if batter.mods.has Mod.RedHot then
    w.updPlayer bid (fun p => { p with mods := p.mods.remove Mod.RedHot })
  else if batter.mods.has Mod.HeatingUp then
    w.updPlayer bid (fun p => { p with mods := p.mods.remove Mod.HeatingUp })
  else
    w

/-- The event-specific mutation of `Event::apply` (everything after the log
append shared by all branches).  Trapping source paths (`unwrap` of a
missing entity, an unrecognized sub-kind code, index underflow) are modelled
by defaulting, so statements are only meaningful away from those paths. -/
def Event.applyInner (e : Event) (g : Game) (w : World) : Game × World :=
  match e with
  | Event.BatterUp batter =>
    let g := g.updBatting (fun t => { t with batter := some batter })
    (if !g.started then { g with started := true } else g, w)
  | Event.InningSwitch inning top =>
    let g :=
      if g.weather = Weather.Salmon then
        if g.scoreboard.top then
          let runs_away := g.scoreboard.away_team.score - g.linescore_away.getD 0 0
          let ls := g.linescore_away ++ [runs_away]
          { g with linescore_away := ls.set 0 (ls.getD 0 0 + runs_away) }
        else
          let runs_home := g.scoreboard.home_team.score - g.linescore_home.getD 0 0
          let ls := g.linescore_home ++ [runs_home]
          { g with linescore_home := ls.set 0 (ls.getD 0 0 + runs_home) }
      else g
    let g := { g with inning := inning }
    let g := { g with scoreboard := { g.scoreboard with top := top } }
    let g := { g with outs := 0, balls := 0, strikes := 0, scoring_plays_inning := 0 }
    ({ g with runners := Baserunners.new (g.get_bases w) }, w)
  | Event.GameOver =>
    let home := g.scoreboard.home_team
    let away := g.scoreboard.away_team
    let winning_team := if home.score > away.score then home.id else away.id
    let losing_team := if home.score > away.score then away.id else home.id
    let w :=
      if g.day < 99 then
        (w.updTeam winning_team (fun t => { t with wins := t.wins + 1 })).updTeam
          losing_team (fun t => { t with losses := t.losses + 1 })
      else
        (w.updTeam winning_team (fun t => { t with postseason_wins := t.postseason_wins + 1 })).updTeam
          losing_team (fun t => { t with postseason_losses := t.postseason_losses + 1 })
    (g, w)
  | Event.Ball => ({ g with balls := g.balls + 1 }, w)
  | Event.Strike => ({ g with strikes := g.strikes + 1 }, w)
  | Event.Foul =>
    let g := { g with strikes := g.strikes + 1 }
    ({ g with strikes := min g.strikes (g.get_max_strikes w - 1) }, w)
  | Event.Strikeout | Event.CharmStrikeout =>
    let w := w.feedAdd ((g.batter).getD 0) e.repr
    let triple_threat_active := (w.player g.pitcher).mods.has Mod.TripleThreat ∧
      (g.balls = 3 ∨ g.runners.occupied 2 ∨ g.runners.lenR = 3)
    let g := if triple_threat_active then
        g.updBatting (fun t => { t with score := t.score - 0.3 })
      else g
    let g := { g with outs := g.outs + 1 }
    (g.end_pa, w)
  | Event.Walk | Event.CharmWalk =>
    let w := w.feedAdd ((g.batter).getD 0) e.repr
    let g := { g with runners := g.runners.walk }
    let g := { g with runners := g.runners.addR 0 ((g.batter).getD 0) }
    let g := g.score w
    let g := g.base_sweep w
    (g.end_pa, w)
  | Event.HomeRun =>
    let w := w.feedAdd ((g.batter).getD 0) e.repr
    let w := upgrade_spicy g w
    let no_runners_on := g.runners.empty
    let g := { g with runners := g.runners.advance_all (g.get_bases w) }
    let g := g.score w
    let g := g.updBatting (fun t => { t with score := t.score + g.get_run_value })
    let g := g.updBatting (fun t =>
      { t with score := t.score + (w.player ((g.batter).getD 0)).get_run_value })
    let g := g.base_sweep w
    let g := if no_runners_on then
        { g with scoring_plays_inning := g.scoring_plays_inning + 1 }
      else g
    (g.end_pa, w)
  | Event.BaseHit bases runners_after =>
    let batter := (g.batter).getD 0
    let w := w.feedAdd batter e.repr
    let w := upgrade_spicy g w
    let g := { g with runners := runners_after }
    let g := g.score w
    let g := g.base_sweep w
    let g := { g with runners := g.runners.addR (bases - 1) batter }
    (g.end_pa, w)
  | Event.GroundOut _ runners_after =>
    let w := w.feedAdd ((g.batter).getD 0) e.repr
    let w := downgrade_spicy g w
    let g := { g with outs := g.outs + 1 }
    let g := { g with runners := runners_after }
    let g := g.score w
    let g := g.base_sweep w
    (g.end_pa, w)
  | Event.Flyout _ runners_after =>
    let w := w.feedAdd ((g.batter).getD 0) e.repr
    let w := downgrade_spicy g w
    let g := { g with outs := g.outs + 1 }
    let g := { g with runners := runners_after }
    let g := g.score w
    let g := g.base_sweep w
    (g.end_pa, w)
  | Event.DoublePlay runners_after =>
    let w := w.feedAdd ((g.batter).getD 0) e.repr
    let w := downgrade_spicy g w
    let g := { g with outs := g.outs + 2 }
    let g := { g with runners := runners_after }
    let g := g.score w
    let g := g.base_sweep w
    (g.end_pa, w)
  | Event.FieldersChoice runners_after =>
    let w := w.feedAdd ((g.batter).getD 0) e.repr
    let w := downgrade_spicy g w
    let g := { g with outs := g.outs + 1 }
    let g := { g with runners := runners_after }
    let g := { g with runners := g.runners.addR 0 ((g.batter).getD 0) }
    let g := g.score w
    let g := g.base_sweep w
    (g.end_pa, w)
  | Event.BaseSteal runner base_from _ =>
    let g := if (w.player runner).mods.has Mod.Blaserunning then
        g.updBatting (fun t => { t with score := t.score + 0.2 })
      else g
    let g := { g with runners := g.runners.advance base_from }
    let g := g.score w
    (g.base_sweep w, w)
  | Event.CaughtStealing _ base_from =>
    let g := { g with runners := g.runners.removeR base_from }
    ({ g with outs := g.outs + 1 }, w)
  | Event.Party target boosts =>
    (g, w.updPlayer target (fun p => p.boost boosts))
  | Event.Incineration target replacement chain =>
    let new_player := replacement.name = ""
    let wid :=
      if new_player then w.add_rolled_player replacement ((w.player target).team.getD 0)
      else (w, replacement.id)
    let w := wid.fst
    let replacement_id := wid.snd
    let g :=
      match g.batter with
      | some batter =>
        if batter = target then
          g.updBatting (fun t => { t with batter := some replacement_id })
        else g
      | none =>
        if target = g.pitcher then
          g.updPitching (fun t => { t with pitcher := replacement_id })
        else if target = g.scoreboard.batting_team.pitcher then
          g.updBatting (fun t => { t with pitcher := replacement_id })
        else g
    let w := if new_player then w.replace_player target replacement_id
      else w.swap_hall target replacement_id
    let w :=
      match chain with
      | some c => w.updPlayer c (fun p =>
          { p with mods := p.mods.add Mod.Unstable ModLifetime.Week })
      | none => w
    (g, w)
  | Event.Peanut target yummy =>
    let coeff : ℚ := if yummy then 0.2 else -0.2
    (g, w.updPlayer target (fun p => p.boost (List.replicate 26 coeff)))
  | Event.Birds => (g, w)
  | Event.Feedback target1 target2 =>
    let g :=
      match g.batter with
      | some batter =>
        if batter = target1 then g.assign_batter target2 else g.assign_pitcher target2
      | none => g
    let g := if g.scoreboard.batting_team.pitcher = target2 then
        g.updBatting (fun t => { t with pitcher := target1 })
      else g
    (g, w.swap target1 target2)
  | Event.Reverb reverb_type team changes =>
    let w := w.updTeam team (fun t => t.apply_reverb_changes reverb_type changes)
    let g :=
      if reverb_type ≠ 3 ∧ g.scoreboard.batting_team.id = team then
        let idx := g.scoreboard.batting_team.batter_index
        let world_team := w.team team
        g.assign_batter (world_team.lineup.getD (idx % world_team.lineup.length) 0)
      else if reverb_type ≠ 2 then
        if g.scoreboard.pitching_team.id = team then
          g.assign_pitcher
            ((w.team team).rotation.getD (g.day % (w.team team).rotation.length) 0)
        else
          g.updBatting (fun t =>
            { t with pitcher :=
                (w.team team).rotation.getD (g.day % (w.team team).rotation.length) 0 })
      else g
    (g, w)
  | Event.Blooddrain drainer target stat _ siphon_effect =>
    let gw :=
      if siphon_effect = -1 then
        (g, w.updPlayer drainer (fun p => p.boost (statBoosts stat 0.1)))
      else if siphon_effect = 0 then ({ g with outs := g.outs + 1 }, w)
      else if siphon_effect = 1 then ({ g with outs := g.outs - 1 }, w)
      else if siphon_effect = 2 then ({ g with balls := g.balls - 1 }, w)
      else (g, w)
    let g := gw.fst
    let w := gw.snd
    (g, w.updPlayer target (fun p => p.boost (statBoosts stat (-0.1))))
  | Event.Sun2 home_team =>
    if home_team then
      let g := g.updHome (fun t => { t with score := t.score - 10 })
      let w :=
        if g.day > 98 then
          w.updTeam g.scoreboard.home_team.id (fun t =>
            { t with postseason_wins := t.postseason_wins + 1 })
        else
          w.updTeam g.scoreboard.home_team.id (fun t => { t with wins := t.wins + 1 })
      (g, w)
    else
      let g := g.updAway (fun t => { t with score := t.score - 10 })
      let w :=
        if g.day > 98 then
          w.updTeam g.scoreboard.away_team.id (fun t =>
            { t with postseason_wins := t.postseason_wins + 1 })
        else
          w.updTeam g.scoreboard.away_team.id (fun t => { t with wins := t.wins + 1 })
      (g, w)
  | Event.BlackHole home_team =>
    if home_team then
      let g := g.updHome (fun t => { t with score := t.score - 10 })
      let w :=
        if g.day > 98 then
          w.updTeam g.scoreboard.away_team.id (fun t =>
            { t with postseason_wins := t.postseason_wins - 1 })
        else
          w.updTeam g.scoreboard.away_team.id (fun t => { t with wins := t.wins - 1 })
      (g, w)
    else
      let g := g.updAway (fun t => { t with score := t.score - 10 })
      let w :=
        if g.day > 98 then
          w.updTeam g.scoreboard.home_team.id (fun t =>
            { t with postseason_wins := t.postseason_wins - 1 })
        else
          w.updTeam g.scoreboard.home_team.id (fun t => { t with wins := t.wins - 1 })
      (g, w)
  | Event.Salmon home_runs_lost away_runs_lost =>
    let g := if !(g.events.has "Salmon" (if g.scoreboard.top then 3 else 2)) then
        { g with salmon_resets_inning := 0 }
      else g
    let g := if away_runs_lost then
        g.updAway (fun t =>
          { t with score := t.score -
              g.linescore_away.getD (g.linescore_away.length - 1 - g.salmon_resets_inning) 0 })
      else g
    let g := if home_runs_lost then
        g.updHome (fun t =>
          { t with score := t.score -
              g.linescore_home.getD (g.linescore_home.length - 1 - g.salmon_resets_inning) 0 })
      else g
    let g := if !g.scoreboard.top then
        { g with scoreboard := { g.scoreboard with top := true } }
      else { g with inning := g.inning - 1 }
    ({ g with salmon_resets_inning := g.salmon_resets_inning + 1 }, w)
  | Event.PolaritySwitch => ({ g with polarity := !g.polarity }, w)
  | Event.NightShift batter replacement replacement_idx boosts =>
    if batter then
      let team := g.scoreboard.batting_team
      let active_batter := team.batter.getD 0
      let active_batter_order := team.batter_index % (w.team team.id).lineup.length
      let w := w.updTeam team.id (fun t =>
        { t with lineup := t.lineup.set active_batter_order replacement })
      let w := w.updTeam team.id (fun t =>
        { t with shadows := t.shadows.set replacement_idx active_batter })
      let w := w.updPlayer replacement (fun p => p.boost boosts)
      (g.updBatting (fun t => { t with batter := some replacement }), w)
    else
      let team := g.scoreboard.pitching_team
      let active_pitcher := team.pitcher
      let w := w.updTeam team.id (fun t =>
        { t with rotation := t.rotation.set 0 replacement })
      let w := w.updTeam team.id (fun t =>
        { t with shadows := t.shadows.set replacement_idx active_pitcher })
      let w := w.updPlayer replacement (fun p => p.boost boosts)
      (g.updPitching (fun t => { t with pitcher := replacement }), w)
  | Event.Fireproof _ | Event.IffeyJr _ => (g, w)
  | Event.Soundproof _ tangled decreases =>
    (g, w.updPlayer tangled (fun p => p.boost decreases))
  | Event.Reverberating batter =>
    (g.updBatting (fun t =>
      { t with batter_index := t.batter_index - 1, batter := some batter }), w)
  | Event.Shelled _ | Event.Elsewhere _ =>
    let g := g.updBatting (fun t => { t with batter_index := t.batter_index + 1 })
    (if !g.started then { g with started := true } else g, w)
  | Event.HitByPitch target hbp_type =>
    let effect : Option Mod :=
      if hbp_type = 0 then some Mod.Unstable
      else if hbp_type = 1 then some Mod.Flickering
      else if hbp_type = 2 then some Mod.Repeating
      else none
    let w :=
      match effect with
      | some m => w.updPlayer target (fun p =>
          { p with mods := p.mods.add m ModLifetime.Week })
      | none => w
    let g := { g with runners := g.runners.walk }
    let g := { g with runners := g.runners.addR 0 ((g.batter).getD 0) }
    let g := g.score w
    let g := g.base_sweep w
    (g.end_pa, w)
  | Event.PeckedFree player =>
    (g, w.updPlayer player (fun p =>
      { p with mods := (p.mods.remove Mod.Shelled).add Mod.Superallergic ModLifetime.Permanent }))
  | Event.Zap batter =>
    if batter then ({ g with strikes := g.strikes - 1 }, w)
    else ({ g with balls := g.balls - 1 }, w)
  | Event.InstinctWalk third =>
    let w := w.feedAdd ((g.batter).getD 0) e.repr
    let g := { g with runners := g.runners.walk_instincts third }
    let g := { g with runners := g.runners.addR (if third then 2 else 1) ((g.batter).getD 0) }
    let g := g.score w
    let g := g.base_sweep w
    (g.end_pa, w)
  | Event.BigPeanut target =>
    (g, w.updPlayer target (fun p =>
      { p with mods := p.mods.add Mod.Shelled ModLifetime.Permanent }))
  | Event.MildPitch =>
    let g := { g with balls := g.balls + 1 }
    let g := { g with runners := g.runners.advance_all 1 }
    let g := g.score w
    (g.base_sweep w, w)
  | Event.MildWalk =>
    let w := w.feedAdd ((g.batter).getD 0) e.repr
    let g := { g with runners := g.runners.advance_all 1 }
    let g := { g with runners := g.runners.addR 0 ((g.batter).getD 0) }
    let g := g.score w
    let g := g.base_sweep w
    (g.end_pa, w)
  | Event.Repeating batter =>
    (g.updBatting (fun t =>
      { t with batter_index := t.batter_index - 1, batter := some batter }), w)
  | Event.FireEater target =>
    (g, w.updPlayer target (fun p =>
      { p with mods := p.mods.add Mod.Magmatic ModLifetime.Permanent }))
  | Event.MagmaticHomeRun =>
    let bid := (g.batter).getD 0
    let w := w.feedAdd bid e.repr
    let w := w.updPlayer bid (fun p => { p with mods := p.mods.remove Mod.Magmatic })
    let w := upgrade_spicy g w
    let no_runners_on := g.runners.empty
    let g := { g with runners := g.runners.advance_all (g.get_bases w) }
    let g := g.score w
    let g := g.updBatting (fun t => { t with score := t.score + g.get_run_value })
    let g := g.updBatting (fun t =>
      { t with score := t.score + (w.player ((g.batter).getD 0)).get_run_value })
    let g := g.base_sweep w
    let g := if no_runners_on then
        { g with scoring_plays_inning := g.scoring_plays_inning + 1 }
      else g
    (g.end_pa, w)
  | Event.CrowAmbush =>
    let g := { g with outs := g.outs + 1 }
    (g.end_pa, w)
  | Event.TasteTheInfinite target =>
    (g, w.updPlayer target (fun p =>
      { p with mods := p.mods.add Mod.Shelled ModLifetime.Permanent }))
  | Event.Inhabiting _ inhabit =>
    let g := g.updBatting (fun t => { t with batter := some inhabit })
    (if !g.started then { g with started := true } else g, w)
  | Event.BlockedDrain _ _ => (g, w)
  | Event.Performing overperforming underperforming =>
    let w := overperforming.foldl (fun w p => w.updPlayer p (fun q =>
      { q with mods := q.mods.add Mod.Overperforming ModLifetime.Game })) w
    let w := underperforming.foldl (fun w p => w.updPlayer p (fun q =>
      { q with mods := q.mods.add Mod.Underperforming ModLifetime.Game })) w
    (g, w)
  | Event.Beaned =>
    let bid := (g.batter).getD 0
    let batter := w.player bid
    let w :=
      if batter.mods.has Mod.Wired then
        w.updPlayer bid (fun p =>
          { p with mods := (p.mods.remove Mod.Wired).add Mod.Tired ModLifetime.Game })
      else if batter.mods.has Mod.Tired then
        w.updPlayer bid (fun p => { p with mods := p.mods.remove Mod.Tired })
      else
        w.updPlayer bid (fun p => { p with mods := p.mods.add Mod.Wired ModLifetime.Game })
    (g, w)
  | Event.PouredOver =>
    (g, w.updPlayer ((g.batter).getD 0) (fun p =>
      { p with mods := p.mods.add Mod.FreeRefill ModLifetime.Game }))
  | Event.TripleThreat =>
    let w := w.updPlayer g.scoreboard.home_team.pitcher (fun p =>
      { p with mods := p.mods.add Mod.TripleThreat ModLifetime.Permanent })
    let w := w.updPlayer g.scoreboard.away_team.pitcher (fun p =>
      { p with mods := p.mods.add Mod.TripleThreat ModLifetime.Permanent })
    (g, w)
  | Event.TripleThreatDeactivation home away =>
    let w := if home then
        w.updPlayer g.scoreboard.home_team.pitcher (fun p =>
          { p with mods := p.mods.remove Mod.TripleThreat })
      else w
    let w := if away then
        w.updPlayer g.scoreboard.away_team.pitcher (fun p =>
          { p with mods := p.mods.remove Mod.TripleThreat })
      else w
    (g, w)
  | Event.Swept elsewhere =>
    let g := g.runners.runners.foldl (fun g r =>
      if (w.player r.id).mods.has Mod.Flippers then
        g.updBatting (fun t =>
          { t with score := t.score + (w.player r.id).get_run_value + 1 })
      else g) g
    let g := { g with runners := g.runners.clear }
    let w := elsewhere.foldl (fun w runner => w.updPlayer runner (fun p =>
      { p with mods := p.mods.add Mod.Elsewhere ModLifetime.Permanent,
               swept_on := some g.day })) w
    (g, w)
  | Event.ElsewhereReturn returned letters =>
    let w := returned.foldl (fun w player => w.updPlayer player (fun p =>
      { p with mods := p.mods.remove Mod.Elsewhere, swept_on := none })) w
    let w := (List.range letters.length).foldl (fun w i =>
      if 0 < letters.getD i 0 then
        w.updPlayer (returned.getD i 0) (fun p =>
          { p with mods := p.mods.add Mod.Scattered ModLifetime.Permanent,
                   scattered_letters := letters.getD i 0 })
      else w) w
    (g, w)
  | Event.Unscatter unscattered =>
    let w := unscattered.foldl (fun w player =>
      let w := w.updPlayer player (fun p =>
        { p with scattered_letters := p.scattered_letters - 1 })
      if (w.player player).scattered_letters = 0 then
        w.updPlayer player (fun p => { p with mods := p.mods.remove Mod.Scattered })
      else w) w
    (g, w)

/-- `Event::apply`: append the event's tag to the log, run the
event-specific mutation, then recompute the cached derived-modifier
snapshot. -/
def Event.apply (e : Event) (g : Game) (w : World) : Game × World :=
  let g := { g with events := g.events.add e.repr }
  let gw := Event.applyInner e g w
  (gw.fst.update_multiplier_data gw.snd, gw.snd)

/-- `enum PitchOutcome` of `sim.rs`: the leaves of the pitch decision tree. -/
inductive PitchOutcome where
  | Ball
  | StrikeSwinging
  | StrikeLooking
  | Foul
  | GroundOut (fielder : Nat) (advancing_runners : List Nat)
  | Flyout (fielder : Nat) (advancing_runners : List Nat)
  | DoublePlay (runner_out : Nat)
  | FieldersChoice (runner_out : Nat)
  | HomeRun
  | Triple (advancing_runners : List Nat)
  | Double (advancing_runners : List Nat)
  | Single (advancing_runners : List Nat)
  | Quadruple (advancing_runners : List Nat)
  deriving DecidableEq

/-- The external probability-formula library (`formulas.rs` is outside the
excerpted core): pure functions of attribute snapshots, context flags, the
ruleset version and the cached multiplier snapshot, treated as a black box
and therefore a parameter of the embedding.  Field argument orders follow
the call sites in `sim.rs`. -/
structure Formulas where
  strike_threshold : Player → Player → Bool → Nat → Nat → ℚ
  swing_threshold : Player → Player → Bool → Nat → Nat → ℚ
  contact_threshold : Player → Player → Bool → Nat → Nat → ℚ
  foul_threshold : Player → Player → Nat → Nat → ℚ
  out_threshold : Player → Player → Player → Nat → Nat → ℚ
  fly_threshold : Player → Player → Nat → Nat → ℚ
  flyout_advancement_threshold : Player → Nat → Nat → Nat → ℚ
  double_play_threshold : Player → Player → Player → Nat → Nat → ℚ
  groundout_sacrifice_threshold : Player → Nat → Nat → ℚ
  groundout_advancement_threshold : Player → Player → Nat → Nat → ℚ
  hr_threshold : Player → Player → Nat → Nat → ℚ
  hit_advancement_threshold : Player → Player → Nat → Nat → ℚ
  quadruple_threshold : Player → Player → Player → Nat → Nat → ℚ
  triple_threshold : Player → Player → Player → Nat → Nat → ℚ
  double_threshold : Player → Player → Player → Nat → Nat → ℚ
  steal_attempt_threshold : Player → Player → ℚ
  steal_success_threshold : Player → Player → ℚ

/-- The per-runner advancement-roll loops of `do_pitch`: one draw per
occupied base, iterated lead runner down, collecting the ids whose draw
beats the per-runner threshold, in iteration order. -/
def advancementLoop (thr : Player → Nat → ℚ) (w : World) : List Runner → Rng → List Nat × Rng
  | [], r => ([], r)
  | br :: rest, r =>
    let runner := w.player br.id
    let (d, r1) := r.next
    let (tl, r2) := advancementLoop thr w rest r1
    (if d < thr runner br.base then br.id :: tl else tl, r2)

/-- `do_pitch` of `sim.rs`: the strictly ordered pitch decision tree. -/
def do_pitch (fd : Formulas) (g : Game) (w : World) (r : Rng) : PitchOutcome × Rng :=
  let pitcher := w.player g.pitcher
  let batter := w.player ((g.batter).getD 0)
  let ruleset := w.season_ruleset
  let is_flinching := decide (g.strikes = 0) && batter.mods.has Mod.Flinch
  let md := g.compute_multiplier_data w
  let (d_strike, r) := r.next
  let is_strike := decide (d_strike < fd.strike_threshold pitcher batter is_flinching ruleset md)
  let dsr :=
    if !is_flinching then
      let (d_swing, r1) := r.next
      (decide (d_swing < fd.swing_threshold pitcher batter is_strike ruleset md), r1)
    else (false, r)
  let does_swing := dsr.fst
  let r := dsr.snd
  if !does_swing then
    (if is_strike then PitchOutcome.StrikeLooking else PitchOutcome.Ball, r)
  else
  let (d_contact, r) := r.next
  let does_contact := decide (d_contact < fd.contact_threshold pitcher batter is_strike ruleset md)
  if !does_contact then (PitchOutcome.StrikeSwinging, r)
  else
  let (d_foul, r) := r.next
  let is_foul := decide (d_foul < fd.foul_threshold pitcher batter ruleset md)
  if is_foul then (PitchOutcome.Foul, r)
  else
  let (d_def, r) := r.next
  let out_defender_id := g.pick_fielder w d_def
  let out_defender := w.player out_defender_id
  let (d_out, r) := r.next
  let is_out := decide (d_out > fd.out_threshold pitcher batter out_defender ruleset md)
  if is_out then
    let (d_fly_def, r) := r.next
    let fly_defender_id := g.pick_fielder w d_fly_def
    let (d_fly, r) := r.next
    let is_fly := decide (d_fly < fd.fly_threshold batter pitcher ruleset md)
    if is_fly then
      if g.outs = 2 then (PitchOutcome.Flyout fly_defender_id [], r)
      else
        let (adv, r) := advancementLoop
          (fun p b => fd.flyout_advancement_threshold p b ruleset md) w g.runners.iter r
        (PitchOutcome.Flyout fly_defender_id adv, r)
    else
      let (d_gdef, r) := r.next
      let ground_defender_id := g.pick_fielder w d_gdef
      if g.outs = 2 then (PitchOutcome.GroundOut ground_defender_id [], r)
      else if !g.runners.empty then
        let (dp_roll, r) := r.next
        if g.runners.occupied 0 then
          if g.outs < 2 ∧ dp_roll < fd.double_play_threshold batter pitcher out_defender ruleset md then
            let (d_pick, r) := r.next
            (PitchOutcome.DoublePlay (g.runners.pick_runner d_pick), r)
          else
            let (sac_roll, r) := r.next
            if sac_roll < fd.groundout_sacrifice_threshold batter ruleset md then
              let (adv, r) := advancementLoop
                (fun p _ => fd.groundout_advancement_threshold p out_defender ruleset md) w g.runners.iter r
              (PitchOutcome.GroundOut ground_defender_id adv, r)
            else
              (PitchOutcome.FieldersChoice g.runners.pick_runner_fc, r)
        else
          let (adv, r) := advancementLoop
            (fun p _ => fd.groundout_advancement_threshold p out_defender ruleset md) w g.runners.iter r
          (PitchOutcome.GroundOut ground_defender_id adv, r)
      else (PitchOutcome.GroundOut ground_defender_id [], r)
  else
  let (d_hr, r) := r.next
  let is_hr := decide (d_hr < fd.hr_threshold pitcher batter ruleset md)
  if is_hr then (PitchOutcome.HomeRun, r)
  else
  let (d_hdef, r) := r.next
  let hit_defender_id := g.pick_fielder w d_hdef
  let hit_defender := w.player hit_defender_id
  let (double_roll, r) := r.next
  let (triple_roll, r) := r.next
  let qr :=
    if g.get_bases w = 5 then r.next
    else ((1 : ℚ), r)
  let quadruple_roll := qr.fst
  let r := qr.snd
  let (adv, r) := advancementLoop
    (fun p _ => fd.hit_advancement_threshold p hit_defender ruleset md) w g.runners.iter r
  if quadruple_roll < fd.quadruple_threshold pitcher batter hit_defender ruleset md then
    (PitchOutcome.Quadruple adv, r)
  else if triple_roll < fd.triple_threshold pitcher batter hit_defender ruleset md then
    (PitchOutcome.Triple adv, r)
  else if double_roll < fd.double_threshold pitcher batter hit_defender ruleset md then
    (PitchOutcome.Double adv, r)
  else (PitchOutcome.Single adv, r)

/-- `BasePlugin::tick`: converts the pitch-decision leaf into an `Event`,
snapshotting and advancing the current baserunners at roll time. -/
def BasePlugin.tick (fd : Formulas) (g : Game) (w : World) (r : Rng) : Option Event × Rng :=
  let max_balls := g.get_max_balls w
  let max_strikes := g.get_max_strikes w
  let last_strike := max_strikes ≤ g.strikes + 1
  let or0 := do_pitch fd g w r
  let r := or0.snd
  match or0.fst with
  | PitchOutcome.Ball =>
    if g.balls + 1 < max_balls then (some Event.Ball, r)
    else if (w.player ((g.batter).getD 0)).mods.has Mod.BaseInstincts then
      let (d, r1) := r.next
      if d < 0.2 then
        let (d2, r2) := r1.next
        let (d3, r3) := r2.next
        (some (Event.InstinctWalk (decide (d2 * d3 < 0.5))), r3)
      else (some Event.Walk, r1)
    else (some Event.Walk, r)
  | PitchOutcome.StrikeSwinging =>
    if last_strike then (some Event.Strikeout, r) else (some Event.Strike, r)
  | PitchOutcome.StrikeLooking =>
    if last_strike then
      if (w.team g.scoreboard.batting_team.id).mods.has Mod.ONo ∧ g.balls = 0 then
        (some Event.Foul, r)
      else (some Event.Strikeout, r)
    else (some Event.Strike, r)
  | PitchOutcome.Foul => (some Event.Foul, r)
  | PitchOutcome.GroundOut fielder advancing_runners =>
    let new_runners := g.runners.advance_if (fun rn => advancing_runners.contains rn.id)
    (some (Event.GroundOut fielder new_runners), r)
  | PitchOutcome.Flyout fielder advancing_runners =>
    let new_runners := g.runners.advance_if (fun rn => advancing_runners.contains rn.id)
    (some (Event.Flyout fielder new_runners), r)
  | PitchOutcome.DoublePlay runner_out =>
    let new_runners := (g.runners.removeR runner_out).advance_all 1
    (some (Event.DoublePlay new_runners), r)
  | PitchOutcome.FieldersChoice runner_out =>
    let new_runners := (g.runners.removeR runner_out).advance_all 1
    (some (Event.FieldersChoice new_runners), r)
  | PitchOutcome.HomeRun => (some Event.HomeRun, r)
  | PitchOutcome.Triple advancing_runners =>
    let new_runners := (g.runners.advance_all 3).advance_if (fun rn => advancing_runners.contains rn.id)
    (some (Event.BaseHit 3 new_runners), r)
  | PitchOutcome.Double advancing_runners =>
    let new_runners := (g.runners.advance_all 2).advance_if (fun rn => advancing_runners.contains rn.id)
    (some (Event.BaseHit 2 new_runners), r)
  | PitchOutcome.Single advancing_runners =>
    let new_runners := (g.runners.advance_all 1).advance_if (fun rn => advancing_runners.contains rn.id)
    (some (Event.BaseHit 1 new_runners), r)
  | PitchOutcome.Quadruple advancing_runners =>
    let new_runners := (g.runners.advance_all 4).advance_if (fun rn => advancing_runners.contains rn.id)
    (some (Event.BaseHit 4 new_runners), r)

/-- The batter-selection stage of `BatterStatePlugin::tick` after the
reverberating/repeating checks fell through. -/
def BatterStatePlugin.tickSelect (g : Game) (w : World) (r : Rng) : Option Event × Rng :=
  let batting_team := g.scoreboard.batting_team
  let idx := batting_team.batter_index
  let team := w.team batting_team.id
  let batter := team.lineup.getD (idx % team.lineup.length) 0
  if (w.player batter).mods.has Mod.Shelled then (some (Event.Shelled batter), r)
  else if (w.player batter).mods.has Mod.Elsewhere then (some (Event.Elsewhere batter), r)
  else if (w.player batter).mods.has Mod.Haunted then
    let (d, r1) := r.next
    if d < 0.2 then
      let (inhabit, r2) := w.random_hall_player r1
      (some (Event.Inhabiting batter inhabit), r2)
    else (some (Event.BatterUp batter), r1)
  else (some (Event.BatterUp batter), r)

/-- The repeating check of `BatterStatePlugin::tick` (the `else if` arm
reached when the reverberating branch did not fire). -/
def BatterStatePlugin.tickRest (g : Game) (w : World) (prev : Nat)
    (first_batter : Bool) (inning_begin : Bool) (r : Rng) : Option Event × Rng :=
  if !first_batter && !inning_begin && (w.player prev).mods.has Mod.Repeating &&
      (decide (g.events.last = some "BaseHit") || decide (g.events.last = some "HomeRun")) then
    if g.weather = Weather.Reverb then (some (Event.Repeating prev), r)
    else BatterStatePlugin.tickSelect g w r
  else BatterStatePlugin.tickSelect g w r

/-- `BatterStatePlugin::tick`. -/
def BatterStatePlugin.tick (_fd : Formulas) (g : Game) (w : World) (r : Rng) : Option Event × Rng :=
  match g.batter with
  | some _ => (none, r)
  | none =>
    let batting_team := g.scoreboard.batting_team
    let idx := batting_team.batter_index
    let team := w.team batting_team.id
    let first_batter : Bool :=
      if !g.started then true
      else if idx = 0 ∧ g.inning = 1 ∧ g.events.last = some "InningSwitch" then true
      else false
    let inning_begin := !first_batter && decide (g.events.last = some "InningSwitch")
    let prev := if first_batter then team.lineup.getD 0 0
      else team.lineup.getD ((idx - 1) % team.lineup.length) 0
    if !first_batter && !inning_begin && (w.player prev).mods.has Mod.Reverberating then
      let (d, r1) := r.next
      if d < 0.2 then (some (Event.Reverberating prev), r1)
      else BatterStatePlugin.tickRest g w prev first_batter inning_begin r1
    else BatterStatePlugin.tickRest g w prev first_batter inning_begin r

/-- `InningStatePlugin::tick`: fires whenever the out count has reached the
per-inning maximum, producing the boundary event. -/
def InningStatePlugin.tick (_fd : Formulas) (g : Game) (_w : World) (r : Rng) : Option Event × Rng :=
  if g.outs < 3 then (none, r)
  else
    let lead : Int :=
      if abs (g.scoreboard.away_team.score - g.scoreboard.home_team.score) < 0.01 then 0
      else if g.scoreboard.away_team.score > g.scoreboard.home_team.score then 1
      else -1
    if 9 ≤ g.inning ∧ (lead = -1 ∨ (!g.scoreboard.top ∧ lead = 1)) then
      (some Event.GameOver, r)
    else if g.scoreboard.top then
      (some (Event.InningSwitch g.inning false), r)
    else
      (some (Event.InningSwitch (g.inning + 1) true), r)

/-- The base loop of `StealingPlugin::tick`, iterated from the lead base
down, with one attempt draw (and one success draw) per eligible runner. -/
def StealingPlugin.stealLoop (fd : Formulas) (g : Game) (w : World)
    (steal_defender : Player) : List Nat → Rng → Option Event × Rng
  | [], r => (none, r)
  | base :: rest, r =>
    match g.runners.at base with
    | some runner_id =>
      if g.runners.can_advance base then
        let runner := w.player runner_id
        let (d1, r1) := r.next
        if d1 < fd.steal_attempt_threshold runner steal_defender then
          let (d2, r2) := r1.next
          if d2 < fd.steal_success_threshold runner steal_defender then
            (some (Event.BaseSteal runner_id base (base + 1)), r2)
          else (some (Event.CaughtStealing runner_id base), r2)
        else StealingPlugin.stealLoop fd g w steal_defender rest r1
      else StealingPlugin.stealLoop fd g w steal_defender rest r
    | none => StealingPlugin.stealLoop fd g w steal_defender rest r

/-- `StealingPlugin::tick`. -/
def StealingPlugin.tick (fd : Formulas) (g : Game) (w : World) (r : Rng) : Option Event × Rng :=
  let (d, r) := r.next
  let steal_defender := w.player (g.pick_fielder w d)
  StealingPlugin.stealLoop fd g w steal_defender (List.range (g.get_bases w)).reverse r

/-- `poll_for_mod` of `sim.rs` (exclusion is one of "all", "current",
"playing"). -/
def poll_for_mod (g : Game) (w : World) (a_mod : Mod) (exclusion : String) : List Nat :=
  let home_team := g.scoreboard.home_team
  let away_team := g.scoreboard.away_team
  let home_lineup :=
    if !g.scoreboard.top ∧ exclusion = "playing" then
      [(g.batter).getD 0] ++ g.runners.iter.map (fun rn => rn.id)
    else (w.team home_team.id).lineup
  let home_pitcher :=
    if exclusion ≠ "all" then
      if !g.scoreboard.top ∧ exclusion = "playing" then []
      else [home_team.pitcher]
    else (w.team home_team.id).rotation
  let away_lineup :=
    if g.scoreboard.top ∧ exclusion = "playing" then
      [(g.batter).getD 0] ++ g.runners.iter.map (fun rn => rn.id)
    else (w.team away_team.id).lineup
  let away_pitcher :=
    if exclusion ≠ "all" then
      if g.scoreboard.top ∧ exclusion = "playing" then []
      else [away_team.pitcher]
    else (w.team away_team.id).rotation
  (home_lineup ++ home_pitcher ++ away_lineup ++ away_pitcher).filter
    (fun p => (w.player p).mods.has a_mod)

/-- The draw loop of `roll_random_boosts`, one draw per stat, in order. -/
def rollBoostsAux : Nat → Rng → ℚ → ℚ → List ℚ × Rng
  | 0, r, _, _ => ([], r)
  | n + 1, r, base, threshold =>
    let (d, r1) := r.next
    let (tl, r2) := rollBoostsAux n r1 base threshold
    ((base + d * threshold) :: tl, r2)

/-- `roll_random_boosts` of `sim.rs`. -/
def roll_random_boosts (r : Rng) (base : ℚ) (threshold : ℚ) (exclude_press : Bool) : List ℚ × Rng :=
  let stat_number := if exclude_press then 25 else 26
  rollBoostsAux stat_number r base threshold

/-- The fire-eater loop of the eclipse arm of `WeatherPlugin::tick`. -/
def WeatherPlugin.fireEaterLoop : List Nat → Rng → Option Event × Rng
  | [], r => (none, r)
  | fe :: rest, r =>
    let (d, r1) := r.next
    if d < 0.002 then (some (Event.FireEater fe), r1)
    else WeatherPlugin.fireEaterLoop rest r1

/-- The incineration tail of the eclipse arm: the chain draw (whose result
the source drops through an inner shadowing `let chain`) and the
replacement roll. -/
def WeatherPlugin.eclipseIncinerate (g : Game) (w : World) (target : Nat)
    (unstable_check : Bool) (r : Rng) : Option Event × Rng :=
  let chain : Option Nat := none
  let r :=
    if unstable_check then
      let (d, r1) := r.next
      let _chain_target := g.pick_player_weighted w d
        (fun uuid => !((w.player uuid).team.getD 0 = (w.player target).team.getD 0)) false
      r1
    else r
  let pr :=
    if (w.player target).mods.has Mod.Squiddish then
      let (hp, r1) := w.random_hall_player r
      (w.player hp, r1)
    else Player.new r
  (some (Event.Incineration target pr.fst chain), pr.snd)

/-- An early return from a provider loop: keep the produced event, or run
the rest of the provider on the threaded RNG. -/
def firstSome (x : Option Event × Rng) (k : Rng → Option Event × Rng) : Option Event × Rng :=
  match x with
  | (some e, r1) => (some e, r1)
  | (none, r1) => k r1

/-- The tail of the eclipse arm after the fire-eater loop yields nothing. -/
def WeatherPlugin.eclipseRest (g : Game) (w : World) (incin_roll : ℚ) (r1 : Rng) :
    Option Event × Rng :=
    let fort : ℚ := 0
    let (d_target, r) := r1.next
    let target := g.pick_player_weighted w d_target (fun uuid => !g.runners.contains uuid) true
    let unstable_check := (w.player target).mods.has Mod.Unstable ∧ incin_roll < 0.002
    let regular_check := incin_roll < 0.00045 - 0.0004 * fort
    if unstable_check ∨ regular_check then
      if (w.player target).mods.has Mod.Fireproof ∨
          (w.team ((w.player target).team.getD 0)).mods.has Mod.Fireproof then
        (some (Event.Fireproof target), r)
      else
        let minimized := poll_for_mod g w Mod.Minimized "all"
        if 0 < minimized.length then
          if 1 < minimized.length then
            (none, r)
          else if (w.player target).team.getD 0 = (w.player (minimized.getD 0 0)).team.getD 0 ∧
              (w.player (minimized.getD 0 0)).mods.has Mod.Minimized then
            (some (Event.IffeyJr target), r)
          else
            WeatherPlugin.eclipseIncinerate g w target (decide unstable_check) r
        else
          WeatherPlugin.eclipseIncinerate g w target (decide unstable_check) r
    else (none, r)

/-- The eclipse arm of `WeatherPlugin::tick`: the fire-eater loop may
return early, otherwise the incineration checks run on the threaded RNG. -/
def WeatherPlugin.eclipse (g : Game) (w : World) (r : Rng) : Option Event × Rng :=
  let fire_eaters := poll_for_mod g w Mod.FireEater "playing"
  let (incin_roll, r) := r.next
  firstSome (WeatherPlugin.fireEaterLoop fire_eaters r)
    (WeatherPlugin.eclipseRest g w incin_roll)

/-- The pitcher-side honey-roasted check of the peanuts arm. -/
def WeatherPlugin.peanutsPitcher (g : Game) (w : World) (r : Rng) : Option Event × Rng :=
  if (w.player g.pitcher).mods.has Mod.HoneyRoasted then
    let (d, r1) := r.next
    if d < 0.0061 then (some (Event.TasteTheInfinite ((g.batter).getD 0)), r1)
    else (none, r1)
  else (none, r)

/-- The peanuts arm of `WeatherPlugin::tick`. -/
def WeatherPlugin.peanuts (g : Game) (w : World) (r : Rng) : Option Event × Rng :=
  let fort : ℚ := 0
  let (d1, r) := r.next
  if d1 < 0.000002 then
    let (d2, r) := r.next
    (some (Event.BigPeanut (g.pick_player_weighted w d2 (fun _ => true) true)), r)
  else
    let (d3, r) := r.next
    if d3 < 0.0006 - 0.00055 * fort then
      let (d4, r) := r.next
      (some (Event.Peanut (g.pick_player_weighted w d4 (fun uuid => !g.runners.contains uuid) true) false), r)
    else if (w.player ((g.batter).getD 0)).mods.has Mod.HoneyRoasted then
      let (d5, r1) := r.next
      if d5 < 0.0076 then
        let (_, r2) := r1.next
        let (d6, r3) := r2.next
        (some (Event.TasteTheInfinite (g.pick_fielder w d6)), r3)
      else WeatherPlugin.peanutsPitcher g w r1
    else WeatherPlugin.peanutsPitcher g w r

/-- The shelled-player loop of the birds arm. -/
def WeatherPlugin.birdsLoop (w : World) : List Nat → Rng → Option Event × Rng
  | [], r => (none, r)
  | player :: rest, r =>
    let (shelled_roll, r1) := r.next
    if ((w.team ((w.player player).team.getD 0)).mods.has Mod.BirdSeed ∧ shelled_roll < 0.001) ∨
        shelled_roll < 0.00015 then
      (some (Event.PeckedFree player), r1)
    else WeatherPlugin.birdsLoop w rest r1

/-- The birds arm of `WeatherPlugin::tick`. -/
def WeatherPlugin.birds (g : Game) (w : World) (r : Rng) : Option Event × Rng :=
  let (d, r) := r.next
  if d < 0.03 then (some Event.Birds, r)
  else WeatherPlugin.birdsLoop w (poll_for_mod g w Mod.Shelled "all") r

/-- The soundproof/feedback packaging tail of the feedback arm. -/
def WeatherPlugin.feedbackFinish (w : World) (target1 : Nat) (target2 : Nat)
    (r : Rng) : Option Event × Rng :=
  if (w.player target1).mods.has Mod.Soundproof then
    let (decreases, r1) := roll_random_boosts r 0 (-0.05) true
    (some (Event.Soundproof target1 target2 decreases), r1)
  else if (w.player target2).mods.has Mod.Soundproof then
    let (decreases, r1) := roll_random_boosts r 0 (-0.05) true
    (some (Event.Soundproof target2 target1 decreases), r1)
  else (some (Event.Feedback target1 target2), r)

/-- The feedback arm of `WeatherPlugin::tick`. -/
def WeatherPlugin.feedback (g : Game) (w : World) (r : Rng) : Option Event × Rng :=
  let fort : ℚ := 0
  let (d_isb, r) := r.next
  let is_batter := d_isb < (9 : ℚ) / 14
  let (feedback_roll, r) := r.next
  let batter := (g.batter).getD 0
  let pitcher := g.pitcher
  if is_batter then
    let feedback_check := ((w.player batter).mods.has Mod.SuperFlickering ∧ feedback_roll < 0.055)
      ∨ ((w.player batter).mods.has Mod.Flickering ∧ feedback_roll < 0.02)
      ∨ feedback_roll < 0.0001 - 0.0001 * fort
    if feedback_check then
      let (d, r1) := r.next
      WeatherPlugin.feedbackFinish w batter (g.pick_fielder w d) r1
    else (none, r)
  else
    let feedback_check := ((w.player pitcher).mods.has Mod.SuperFlickering ∧ feedback_roll < 0.055)
      ∨ ((w.player pitcher).mods.has Mod.Flickering ∧ feedback_roll < 0.02)
      ∨ feedback_roll < 0.0001 - 0.0001 * fort
    if feedback_check then
      let batting_team := w.team g.scoreboard.batting_team.id
      let (d, r1) := r.next
      let idx := ratIdx d batting_team.rotation.length
      WeatherPlugin.feedbackFinish w pitcher (batting_team.rotation.getD idx 0) r1
    else (none, r)

/-- The reverb arm of `WeatherPlugin::tick`. -/
def WeatherPlugin.reverb (g : Game) (w : World) (r : Rng) : Option Event × Rng :=
  let (d, r) := r.next
  if d < 0.00003 then
    let (trt, r) := r.next
    let reverb_type : Nat :=
      if trt < 0.09 then 0 else if trt < 0.55 then 1 else if trt < 0.95 then 2 else 3
    let (dteam, r) := r.next
    let team_id := if dteam < 0.5 then g.scoreboard.home_team.id else g.scoreboard.away_team.id
    let team := w.team team_id
    let gravity_players :=
      ((List.range team.lineup.length).filter
        (fun i => (w.player (team.lineup.getD i 0)).mods.has Mod.Gravity)) ++
      (((List.range team.rotation.length).filter
        (fun i => (w.player (team.rotation.getD i 0)).mods.has Mod.Gravity)).map
        (fun i => i + team.lineup.length))
    let (changes, r) := team.roll_reverb_changes r reverb_type gravity_players
    (some (Event.Reverb reverb_type team_id changes), r)
  else (none, r)

/-- Target selection of the blooddrain arm when a siphon fires. -/
def WeatherPlugin.blooddrainSiphonTargets (g : Game) (w : World) (siphons : List Nat)
    (r : Rng) : Nat × Nat × Rng :=
  let (i, r) := r.index siphons.length
  let siphon_player := siphons.getD i 0
  let (d_active, r) := r.next
  if d_active < 0.5 then
    let target := if siphon_player = (g.batter).getD 0 then g.pitcher else (g.batter).getD 0
    (siphon_player, target, r)
  else
    let (target_roll, r) := r.next
    if (w.player siphon_player).team.getD 0 = g.scoreboard.batting_team.id then
      (siphon_player, g.pick_fielder w target_roll, r)
    else if g.runners.empty then (siphon_player, (g.batter).getD 0, r)
    else
      let (d_h, r) := r.next
      (siphon_player,
       g.pick_player_weighted w d_h
         (fun uuid => decide (uuid = (g.batter).getD 0) || g.runners.contains uuid) true, r)

/-- Target selection of the blooddrain arm for a regular drain. -/
def WeatherPlugin.blooddrainRegularTargets (g : Game) (w : World) (r : Rng) : Nat × Nat × Rng :=
  let (d_f, r) := r.next
  let fielding_team_drains := d_f < 0.5
  let (d_a, r) := r.next
  let is_atbat := d_a < 0.5
  if is_atbat then
    let drainer := if fielding_team_drains then g.pitcher else (g.batter).getD 0
    let target := if fielding_team_drains then (g.batter).getD 0 else g.pitcher
    (drainer, target, r)
  else
    let (fielder_roll, r) := r.next
    let fielder := g.pick_fielder w fielder_roll
    let hr :=
      if g.runners.empty then ((g.batter).getD 0, r)
      else
        let (d_h, r1) := r.next
        (g.pick_player_weighted w d_h
          (fun uuid => decide (uuid = (g.batter).getD 0) || g.runners.contains uuid) true, r1)
    let hitter := hr.fst
    let r := hr.snd
    (if fielding_team_drains then fielder else hitter,
     if fielding_team_drains then hitter else fielder, r)

/-- The blooddrain arm of `WeatherPlugin::tick`. -/
def WeatherPlugin.blooddrain (g : Game) (w : World) (r : Rng) : Option Event × Rng :=
  let fort : ℚ := 0
  let ruleset := w.season_ruleset
  let drain_threshold : ℚ :=
    if ruleset < 16 then 0.00065 - 0.001 * fort else 0.00125 - 0.00125 * fort
  let siphon_threshold : ℚ := 0.0025
  let siphons := poll_for_mod g w Mod.Siphon "playing"
  let (drain_roll, r) := r.next
  if drain_roll < drain_threshold ∨ (0 < siphons.length ∧ drain_roll < siphon_threshold) then
    let siphon := decide (drain_roll > drain_threshold)
    let dtr :=
      if siphon then WeatherPlugin.blooddrainSiphonTargets g w siphons r
      else WeatherPlugin.blooddrainRegularTargets g w r
    let drainer := dtr.fst
    let target := dtr.snd.fst
    let r := dtr.snd.snd
    if (w.team ((w.player target).team.getD 0)).mods.has Mod.Sealant then
      (some (Event.BlockedDrain drainer target), r)
    else
      let ser := if siphon then r.next else ((0 : ℚ), r)
      let siphon_effect_roll := ser.fst
      let r := ser.snd
      let siphon_effect : Int :=
        if siphon_effect_roll < 0.35 then -1
        else if (w.player drainer).team.getD 0 = g.scoreboard.batting_team.id then
          if 0 < g.outs ∧ siphon_effect_roll < 0.5 then 1 else -1
        else
          if 0 < g.balls ∧ siphon_effect_roll < 0.8 then 2 else 0
      let (d_stat, r) := r.next
      (some (Event.Blooddrain drainer target (ratIdx d_stat 4) siphon siphon_effect), r)
  else (none, r)

/-- The night arm of `WeatherPlugin::tick`. -/
def WeatherPlugin.night (g : Game) (w : World) (r : Rng) : Option Event × Rng :=
  let (d, r) := r.next
  if d < 0.01 then
    let (d_b, r) := r.next
    let batter := decide (d_b < 0.5)
    let shadows := if batter then (w.team g.scoreboard.batting_team.id).shadows
      else (w.team g.scoreboard.pitching_team.id).shadows
    let (d_i, r) := r.next
    let replacement_idx := ratIdx d_i shadows.length
    let replacement := shadows.getD replacement_idx 0
    let (boosts, r) := roll_random_boosts r 0 0.2 false
    (some (Event.NightShift batter replacement replacement_idx boosts), r)
  else (none, r)

/-- `WeatherPlugin::tick`. -/
def WeatherPlugin.tick (_fd : Formulas) (g : Game) (w : World) (r : Rng) : Option Event × Rng :=
  match g.weather with
  | Weather.Sun => (none, r)
  | Weather.Eclipse => WeatherPlugin.eclipse g w r
  | Weather.Peanuts => WeatherPlugin.peanuts g w r
  | Weather.Birds => WeatherPlugin.birds g w r
  | Weather.Feedback => WeatherPlugin.feedback g w r
  | Weather.Reverb => WeatherPlugin.reverb g w r
  | Weather.Blooddrain => WeatherPlugin.blooddrain g w r
  | Weather.Sun2 =>
    if g.scoreboard.home_team.score > 9.99 then (some (Event.Sun2 true), r)
    else if g.scoreboard.away_team.score > 9.99 then (some (Event.Sun2 false), r)
    else (none, r)
  | Weather.BlackHole =>
    if g.scoreboard.home_team.score > 9.99 then (some (Event.BlackHole true), r)
    else if g.scoreboard.away_team.score > 9.99 then (some (Event.BlackHole false), r)
    else (none, r)
  | Weather.Coffee =>
    let fort : ℚ := 0
    let (d, r1) := r.next
    if d < 0.02 - 0.012 * fort then (some Event.Beaned, r1) else (none, r1)
  | Weather.Coffee2 =>
    let fort : ℚ := 0
    let (d, r1) := r.next
    if d < 0.01875 - 0.0075 * fort ∧
        (w.player ((g.batter).getD 0)).mods.has Mod.FreeRefill = false then
      (some Event.PouredOver, r1)
    else (none, r1)
  | Weather.Coffee3 => (none, r)
  | Weather.Flooding => (none, r)
  | Weather.Salmon => (none, r)
  | Weather.PolarityPlus =>
    let fort : ℚ := 0
    let (d, r1) := r.next
    if d < 0.035 - 0.025 * fort then (some Event.PolaritySwitch, r1) else (none, r1)
  | Weather.PolarityMinus =>
    let fort : ℚ := 0
    let (d, r1) := r.next
    if d < 0.035 - 0.025 * fort then (some Event.PolaritySwitch, r1) else (none, r1)
  | Weather.SunPointOne => (none, r)
  | Weather.SumSun => (none, r)
  | Weather.Night => WeatherPlugin.night g w r

/-- The salmon block of `InningEventPlugin::tick`, reached when the
triple-threat deactivation branch did not fire. -/
def InningEventPlugin.salmon (g : Game) (_w : World) (r : Rng) : Option Event × Rng :=
  match g.weather with
  | Weather.Salmon =>
    let away_team_scored := abs (g.linescore_away.getLast?.getD 0) > 0.01
    let home_team_scored :=
      if !g.scoreboard.top then False else abs (g.linescore_home.getLast?.getD 0) > 0.01
    if 0 < g.events.len ∧ g.events.last = some "InningSwitch" ∧
        (away_team_scored ∨ home_team_scored) then
      let (d_a, r) := r.next
      if d_a < 0.1375 then
        let (d_rl, r) := r.next
        if d_rl < 0.675 then
          if away_team_scored ∧ home_team_scored then
            let (d_dbl, r) := r.next
            if d_dbl < 0.2 then (some (Event.Salmon true true), r)
            else
              let (d_h, r) := r.next
              let home_runs_lost := decide (d_h < 0.5)
              (some (Event.Salmon home_runs_lost (!home_runs_lost)), r)
          else if away_team_scored then (some (Event.Salmon false true), r)
          else (some (Event.Salmon true false), r)
        else (some (Event.Salmon false false), r)
      else (none, r)
    else (none, r)
  | _ => (none, r)

/-- `InningEventPlugin::tick`. -/
def InningEventPlugin.tick (_fd : Formulas) (g : Game) (w : World) (r : Rng) : Option Event × Rng :=
  let activated := fun (event : String) => g.events.has event 1
  if activated "TripleThreatDeactivation" = false ∧ g.inning = 4 ∧ g.scoreboard.top then
    let hd :=
      if (w.player g.scoreboard.home_team.pitcher).mods.has Mod.TripleThreat then
        let (d, r1) := r.next
        (decide (d < 0.333), r1)
      else (false, r)
    let home_pitcher_deactivated := hd.fst
    let r := hd.snd
    let ad :=
      if (w.player g.scoreboard.away_team.pitcher).mods.has Mod.TripleThreat then
        let (d, r1) := r.next
        (decide (d < 0.333), r1)
      else (false, r)
    let away_pitcher_deactivated := ad.fst
    let r := ad.snd
    if home_pitcher_deactivated ∨ away_pitcher_deactivated then
      (some (Event.TripleThreatDeactivation home_pitcher_deactivated away_pitcher_deactivated), r)
    else InningEventPlugin.salmon g w r
  else InningEventPlugin.salmon g w r

/-- The magmatic check ending the clean-count branch of `ModPlugin::tick`
(one draw is consumed before the event fires). -/
def ModPlugin.tickMagmatic (g : Game) (w : World) (r : Rng) : Option Event × Rng :=
  if (w.player ((g.batter).getD 0)).mods.has Mod.Magmatic then
    let (_, r1) := r.next
    (some Event.MagmaticHomeRun, r1)
  else (none, r)

/-- The pitcher-charm check of the clean-count branch of `ModPlugin::tick`. -/
def ModPlugin.tickCharmPitcher (g : Game) (w : World) (r : Rng) : Option Event × Rng :=
  let myst : ℚ := 0
  let charm_threshold : ℚ :=
    if w.season_ruleset = 18 then 0.014 + 0.006 * myst else 0.015 + 0.02 * myst
  if (w.player g.pitcher).mods.has Mod.Charm then
    let (d, r1) := r.next
    if d < charm_threshold then (some Event.CharmStrikeout, r1)
    else ModPlugin.tickMagmatic g w r1
  else ModPlugin.tickMagmatic g w r

/-- The clean-count (0 balls, 0 strikes) branch of `ModPlugin::tick`:
charm walk, charm strikeout or magmatic home run. -/
def ModPlugin.tickCharm (g : Game) (w : World) (r : Rng) : Option Event × Rng :=
  let myst : ℚ := 0
  let charm_threshold : ℚ :=
    if w.season_ruleset = 18 then 0.014 + 0.006 * myst else 0.015 + 0.02 * myst
  if (w.player ((g.batter).getD 0)).mods.has Mod.Charm then
    let (d, r1) := r.next
    if d < charm_threshold then (some Event.CharmWalk, r1)
    else ModPlugin.tickCharmPitcher g w r1
  else ModPlugin.tickCharmPitcher g w r

/-- The mild-pitch stage of `ModPlugin::tick` (its draw is consumed
unconditionally), falling through to the clean-count branch. -/
def ModPlugin.tickMild (g : Game) (w : World) (r : Rng) : Option Event × Rng :=
  let (d, r) := r.next
  if d < 0.005 ∧ (w.player g.pitcher).mods.has Mod.Mild then
    if g.balls = 3 then (some Event.MildWalk, r) else (some Event.MildPitch, r)
  else if g.balls = 0 ∧ g.strikes = 0 then ModPlugin.tickCharm g w r
  else (none, r)

/-- The friend-of-crows stage of `ModPlugin::tick`. -/
def ModPlugin.tickCrows (g : Game) (w : World) (r : Rng) : Option Event × Rng :=
  if (w.player g.pitcher).mods.has Mod.FriendOfCrows then
    match g.weather with
    | Weather.Birds =>
      let (d, r1) := r.next
      if d < 0.0255 then (some Event.CrowAmbush, r1)
      else ModPlugin.tickMild g w r1
    | _ => ModPlugin.tickMild g w r
  else ModPlugin.tickMild g w r

/-- The consolidated-debt stage of `ModPlugin::tick`. -/
def ModPlugin.tickDebt3 (g : Game) (w : World) (r : Rng) : Option Event × Rng :=
  if (w.player g.pitcher).mods.has Mod.ConsolidatedDebt ∧
      (w.player ((g.batter).getD 0)).mods.has Mod.Repeating = false then
    let (d, r1) := r.next
    if d < 0.02 then (some (Event.HitByPitch ((g.batter).getD 0) 2), r1)
    else ModPlugin.tickCrows g w r1
  else ModPlugin.tickCrows g w r

/-- The refinanced-debt stage of `ModPlugin::tick`. -/
def ModPlugin.tickDebt2 (g : Game) (w : World) (r : Rng) : Option Event × Rng :=
  if (w.player g.pitcher).mods.has Mod.RefinancedDebt ∧
      (w.player ((g.batter).getD 0)).mods.has Mod.Flickering = false then
    let (d, r1) := r.next
    if d < 0.02 then (some (Event.HitByPitch ((g.batter).getD 0) 1), r1)
    else ModPlugin.tickDebt3 g w r1
  else ModPlugin.tickDebt3 g w r

/-- The debt stage of `ModPlugin::tick`. -/
def ModPlugin.tickDebt1 (g : Game) (w : World) (r : Rng) : Option Event × Rng :=
  if (w.player g.pitcher).mods.has Mod.DebtU ∧
      (w.player ((g.batter).getD 0)).mods.has Mod.Unstable = false then
    let (d, r1) := r.next
    if d < 0.02 then (some (Event.HitByPitch ((g.batter).getD 0) 0), r1)
    else ModPlugin.tickDebt2 g w r1
  else ModPlugin.tickDebt2 g w r

/-- The pitching-side electric stage of `ModPlugin::tick`. -/
def ModPlugin.tickZap2 (g : Game) (w : World) (r : Rng) : Option Event × Rng :=
  if (w.team g.scoreboard.pitching_team.id).mods.has Mod.Electric ∧ 0 < g.balls then
    let (d, r1) := r.next
    if d < 0.2 then (some (Event.Zap false), r1)
    else ModPlugin.tickDebt1 g w r1
  else ModPlugin.tickDebt1 g w r

/-- `ModPlugin::tick`: the modifier-triggered event provider. -/
def ModPlugin.tick (_fd : Formulas) (g : Game) (w : World) (r : Rng) : Option Event × Rng :=
  if (w.team g.scoreboard.batting_team.id).mods.has Mod.Electric ∧ 0 < g.strikes then
    let (d, r1) := r.next
    if d < 0.2 then (some (Event.Zap true), r1)
    else ModPlugin.tickZap2 g w r1
  else ModPlugin.tickZap2 g w r

/-- `PregamePlugin::tick`. -/
def PregamePlugin.tick (_fd : Formulas) (g : Game) (w : World) (r : Rng) : Option Event × Rng :=
  if !g.started then
    let activated := fun (event : String) => g.events.has event (-1)
    if g.weather = Weather.Coffee3 ∧ activated "TripleThreat" = false then
      (some Event.TripleThreat, r)
    else
      let overperforming : List Nat := []
      let underperforming : List Nat := []
      let superyummy := poll_for_mod g w Mod.Superyummy "current"
      let ou :=
        if 0 < superyummy.length then
          if g.weather = Weather.Peanuts then (overperforming ++ superyummy, underperforming)
          else (overperforming, underperforming ++ superyummy)
        else (overperforming, underperforming)
      let overperforming := ou.fst
      let underperforming := ou.snd
      let perk := poll_for_mod g w Mod.Perk "current"
      let overperforming :=
        if 0 < perk.length then
          if g.weather = Weather.Coffee ∨ g.weather = Weather.Coffee2 ∨
              g.weather = Weather.Coffee3 then
            overperforming ++ perk
          else overperforming
        else overperforming
      if activated "Performing" = false ∧
          (0 < overperforming.length ∨ 0 < underperforming.length) then
        (some (Event.Performing overperforming underperforming), r)
      else (none, r)
  else (none, r)

/-- `PartyPlugin::tick`. -/
def PartyPlugin.tick (_fd : Formulas) (g : Game) (w : World) (r : Rng) : Option Event × Rng :=
  let (party_roll, r) := r.next
  let party_threshold : ℚ := if w.season_ruleset < 20 then 0.0055 else 0.00525
  if party_roll < party_threshold then
    let (d_t, r) := r.next
    let party_team := if d_t < 0.5 then w.team g.scoreboard.home_team.id
      else w.team g.scoreboard.away_team.id
    if party_team.partying then
      let lineup_length := party_team.lineup.length
      let rotation_length := party_team.rotation.length
      let (index, r) := r.index (lineup_length + rotation_length)
      let target := if index < lineup_length then party_team.lineup.getD index 0
        else party_team.rotation.getD (index - lineup_length) 0
      let party_number : ℚ :=
        if (w.player target).mods.has Mod.LifeOfTheParty then 0.048 else 0.04
      let (boosts, r) := roll_random_boosts r party_number party_number true
      (some (Event.Party target boosts), r)
    else (none, r)
  else (none, r)

/-- The per-runner sweep loop of `FloodingPlugin::tick`. -/
def FloodingPlugin.sweepLoop : List Runner → Rng → List Nat × Rng
  | [], r => ([], r)
  | rn :: rest, r =>
    let (d, r1) := r.next
    let (tl, r2) := FloodingPlugin.sweepLoop rest r1
    (if d < 0.1 then rn.id :: tl else tl, r2)

/-- `FloodingPlugin::tick`. -/
def FloodingPlugin.tick (_fd : Formulas) (g : Game) (w : World) (r : Rng) : Option Event × Rng :=
  match g.weather with
  | Weather.Flooding =>
    let fort : ℚ := 0
    let ruleset := w.season_ruleset
    let flooding_threshold : ℚ :=
      if 11 ≤ ruleset ∧ ruleset < 14 then 0.019 - 0.02 * fort
      else if 14 ≤ ruleset ∧ ruleset < 17 then 0.013 - 0.012 * fort
      else if ruleset = 17 then 0.015 - 0.012 * fort
      else if 18 ≤ ruleset ∧ ruleset < 24 then 0.016 - 0.012 * fort
      else 0
    let (d, r) := r.next
    if d < flooding_threshold then
      let (elsewhere, r) := FloodingPlugin.sweepLoop g.runners.iter r
      (some (Event.Swept elsewhere), r)
    else (none, r)
  | _ => (none, r)

/-- The per-character scatter-letter roll of `ElsewherePlugin::tick` (two
draws per name character, the first unused by the source). -/
def ElsewherePlugin.lettersLoop (time_elsewhere : Nat) : Nat → Rng → Nat × Rng
  | 0, r => (0, r)
  | k + 1, r =>
    let (_, r1) := r.next
    let (d, r2) := r1.next
    let (rest, r3) := ElsewherePlugin.lettersLoop time_elsewhere k r2
    ((if d < (time_elsewhere : ℚ) / 100 then 1 else 0) + rest, r3)

/-- The elsewhere-return loop of `ElsewherePlugin::tick` over the batting
side's lineup and rotation. -/
def ElsewherePlugin.returnLoop (g : Game) (w : World) (threshold : ℚ) :
    List Nat → Rng → (List Nat × List Nat) × Rng
  | [], r => (([], []), r)
  | player :: rest, r =>
    if (w.player player).mods.has Mod.Elsewhere then
      let (d, r1) := r.next
      if d < threshold then
        let scattered := w.player player
        let time_elsewhere := g.day - scattered.swept_on.getD 0
        let plr :=
          if 18 < time_elsewhere then
            ElsewherePlugin.lettersLoop time_elsewhere (scattered.name.length - 1) r1
          else (0, r1)
        let player_letters := plr.fst
        let r2 := plr.snd
        let (tl, r3) := ElsewherePlugin.returnLoop g w threshold rest r2
        ((player :: tl.fst, player_letters :: tl.snd), r3)
      else ElsewherePlugin.returnLoop g w threshold rest r1
    else ElsewherePlugin.returnLoop g w threshold rest r

/-- The unscatter loop of `ElsewherePlugin::tick`. -/
def ElsewherePlugin.unscatterLoop (w : World) (threshold : ℚ) :
    List Nat → Rng → List Nat × Rng
  | [], r => ([], r)
  | player :: rest, r =>
    if (w.player player).mods.has Mod.Scattered then
      let (d, r1) := r.next
      let (tl, r2) := ElsewherePlugin.unscatterLoop w threshold rest r1
      (if d < threshold then player :: tl else tl, r2)
    else ElsewherePlugin.unscatterLoop w threshold rest r

/-- `ElsewherePlugin::tick`. -/
def ElsewherePlugin.tick (_fd : Formulas) (g : Game) (w : World) (r : Rng) : Option Event × Rng :=
  let elsewhere_return_threshold : ℚ :=
    if w.season_ruleset = 11 then 0.001
    else if w.season_ruleset = 12 then 0.000575
    else if 13 ≤ w.season_ruleset ∧ w.season_ruleset < 18 then 0.0004
    else if 18 ≤ w.season_ruleset ∧ w.season_ruleset < 24 then 0.00035
    else 0
  let lineup := (w.team g.scoreboard.batting_team.id).lineup
  let rotation := (w.team g.scoreboard.batting_team.id).rotation
  let rlr := ElsewherePlugin.returnLoop g w elsewhere_return_threshold (lineup ++ rotation) r
  let returned := rlr.fst.fst
  let letters := rlr.fst.snd
  let r := rlr.snd
  if 0 < returned.length ∧ ¬(g.events.last = some "ElsewhereReturn") then
    (some (Event.ElsewhereReturn returned letters), r)
  else
    let unscatter_threshold : ℚ :=
      if w.season_ruleset = 11 ∨ w.season_ruleset = 12 then 0.00061
      else if w.season_ruleset = 13 then 0.0005
      else if 14 ≤ w.season_ruleset ∧ w.season_ruleset < 17 then 0.0004
      else if 17 ≤ w.season_ruleset ∧ w.season_ruleset < 20 then 0.00042
      else if w.season_ruleset = 20 ∨ w.season_ruleset = 21 then 0.000485
      else if w.season_ruleset = 22 ∨ w.season_ruleset = 23 then 0.000495
      else 0
    let ulr := ElsewherePlugin.unscatterLoop w unscatter_threshold (lineup ++ rotation) r
    let unscattered := ulr.fst
    let r := ulr.snd
    if 0 < unscattered.length ∧ ¬(g.events.last = some "Unscattered") then
      (some (Event.Unscatter unscattered), r)
    else (none, r)

/-- The type of one plugin's `tick` in the embedding: the read-only match
and roster state plus the threaded RNG. -/
def PluginTick : Type :=
  Formulas → Game → World → Rng → Option Event × Rng

/-- The fixed, closed, ordered provider list of `Sim::new`. -/
def Sim.plugins : List PluginTick :=
  [PregamePlugin.tick, InningStatePlugin.tick, InningEventPlugin.tick,
   BatterStatePlugin.tick, WeatherPlugin.tick, ElsewherePlugin.tick,
   PartyPlugin.tick, FloodingPlugin.tick, ModPlugin.tick,
   StealingPlugin.tick, BasePlugin.tick]

/-- The first-some-wins loop of `Sim::next` over a plugin list; each ticked
plugin keeps its RNG draws even when it yields nothing. -/
def runPlugins (fd : Formulas) (g : Game) (w : World) :
    List PluginTick → Rng → Option Event × Rng
  | [], r => (none, r)
  | p :: ps, r =>
    match p fd g w r with
    | (some e, r1) => (some e, r1)
    | (none, r1) => runPlugins fd g w ps r1

/-- `Sim::next`: the single next event for a (match, roster, rng) triple;
`none` models the fatal no-provider panic. -/
def Sim.next (fd : Formulas) (g : Game) (w : World) (r : Rng) : Option Event × Rng :=
  runPlugins fd g w Sim.plugins r

/-- The next/apply cycle driving a match: `n` ticks of `Sim::next` followed
by `Event::apply`, collecting the produced event sequence. -/
def simRun (fd : Formulas) : Nat → Game → World → Rng → List Event × Game × World × Rng
  | 0, g, w, r => ([], g, w, r)
  | n + 1, g, w, r =>
    match Sim.next fd g w r with
    | (none, r1) => ([], g, w, r1)
    | (some e, r1) =>
      let gw := e.apply g w
      let rest := simRun fd n gw.fst gw.snd r1
      (e :: rest.fst, rest.snd)

/-- Modelled from the spec (for comparison with `Events.has`): the backward
query as §4.4 words it, where the half-inning boundary entries are the tags
actually appended when an inning-switch event is applied, i.e.
`"InningSwitch"`. -/
def Events.hasSpecAux (s : String) (limit : Int) : List String → Int → Bool
  | [], _ => false
  | ev :: rest, half_innings =>
    if ev = s then true
    else if limit ≠ -1 ∧ ev = "InningSwitch" then
      if half_innings < limit then Events.hasSpecAux s limit rest (half_innings + 1)
      else false
    else Events.hasSpecAux s limit rest half_innings

/-- Modelled from the spec: `has(tag, limit)` with the boundary tag spelled
the way applied inning-switch events record it. -/
def Events.hasSpec (es : Events) (s : String) (limit : Int) : Bool :=
  Events.hasSpecAux s limit es.events.reverse 0

/-- The out-family leaves of the pitch decision tree (the branch taken when
the out draw wins). -/
def outKind : PitchOutcome → Bool
  | PitchOutcome.GroundOut _ _ => true
  | PitchOutcome.Flyout _ _ => true
  | PitchOutcome.DoublePlay _ => true
  | PitchOutcome.FieldersChoice _ => true
  | _ => false

/-- The hit-family leaves of the pitch decision tree. -/
def hitKind : PitchOutcome → Bool
  | PitchOutcome.HomeRun => true
  | PitchOutcome.Single _ => true
  | PitchOutcome.Double _ => true
  | PitchOutcome.Triple _ => true
  | PitchOutcome.Quadruple _ => true
  | _ => false

/-- Half-inning/match boundary events. -/
def Event.isBoundary : Event → Bool
  | Event.InningSwitch _ _ => true
  | Event.GameOver => true
  | _ => false

/-- `isBoundary` on an optional produced event. -/
def optBoundary : Option Event → Bool
  | some e => e.isBoundary
  | none => false

/-- The three clean-count modifier events of `ModPlugin::tick`. -/
def Event.charm_or_magmatic : Event → Bool
  | Event.CharmWalk => true
  | Event.CharmStrikeout => true
  | Event.MagmaticHomeRun => true
  | _ => false

/-- `charm_or_magmatic` on an optional produced event. -/
def optCharm : Option Event → Bool
  | some e => e.charm_or_magmatic
  | none => false

/-- A concrete formula instantiation for witnesses: every threshold 1/2. -/
def fd0 : Formulas where
  strike_threshold := fun _ _ _ _ _ => 1/2
  swing_threshold := fun _ _ _ _ _ => 1/2
  contact_threshold := fun _ _ _ _ _ => 1/2
  foul_threshold := fun _ _ _ _ => 1/2
  out_threshold := fun _ _ _ _ _ => 1/2
  fly_threshold := fun _ _ _ _ => 1/2
  flyout_advancement_threshold := fun _ _ _ _ => 1/2
  double_play_threshold := fun _ _ _ _ _ => 1/2
  groundout_sacrifice_threshold := fun _ _ _ => 1/2
  groundout_advancement_threshold := fun _ _ _ _ => 1/2
  hr_threshold := fun _ _ _ _ => 1/2
  hit_advancement_threshold := fun _ _ _ _ => 1/2
  quadruple_threshold := fun _ _ _ _ _ => 1/2
  triple_threshold := fun _ _ _ _ _ => 1/2
  double_threshold := fun _ _ _ _ _ => 1/2
  steal_attempt_threshold := fun _ _ => 1/2
  steal_success_threshold := fun _ _ => 1/2

/-- A plain concrete player for witness states. -/
def mkPlayer (id : Nat) (name : String) (team : Nat) : Player :=
  { defaultPlayer with id := id, name := name, team := some team }

/-- The away side of the witness roster. -/
def awayTeam0 : Team :=
  { defaultTeam with id := 100, name := "Away", lineup := [20, 21], rotation := [31] }

/-- The home side of the witness roster. -/
def homeTeam0 : Team :=
  { defaultTeam with id := 101, name := "Home", lineup := [40, 41], rotation := [30] }

/-- A concrete modifier-free roster: away lineup 20, 21 with pitcher 31;
home lineup 40, 41 with pitcher 30; ruleset 12. -/
def w0 : World where
  players := [(20, mkPlayer 20 "Ace" 100), (21, mkPlayer 21 "Bo" 100),
    (31, mkPlayer 31 "Cy" 100), (40, mkPlayer 40 "Dee" 101),
    (41, mkPlayer 41 "Eli" 101), (30, mkPlayer 30 "Fay" 101)]
  teams := [(100, awayTeam0), (101, homeTeam0)]
  hall := []
  season_ruleset := 12

/-- A concrete started match state under sun weather: top of the first,
fresh 0-0 count, no outs, empty bases, batter 20 at the plate. -/
def g0 : Game where
  events := Events.new
  started := true
  inning := 1
  outs := 0
  balls := 0
  strikes := 0
  weather := Weather.Sun
  polarity := false
  day := 0
  linescore_home := [0]
  linescore_away := [0]
  salmon_resets_inning := 0
  scoring_plays_inning := 0
  runners := Baserunners.new 4
  scoreboard :=
    { home_team := { id := 101, score := 0, batter := none, pitcher := 30, batter_index := 0 },
      away_team := { id := 100, score := 0, batter := some 20, pitcher := 31, batter_index := 0 },
      top := true }
  multiplier_data := 0

/-- A draw stream under which, from `g0`/`w0`/`fd0`, every pitch of a tick
resolves as a swinging strike: positions 4 mod 6 (the swing roll) draw 3/10,
all others 9/10. -/
def r0 : Rng where
  floats := fun i => if i % 6 = 4 then 3/10 else 9/10
  ints := fun _ => 0
  pos := 0

/-- A draw stream for the pitch-tree witness: the swing roll (position 1)
and the contact roll (position 2) draw 3/10, everything else 9/10. -/
def rC6 : Rng where
  floats := fun i => if i = 1 ∨ i = 2 then 3/10 else 9/10
  ints := fun _ => 0
  pos := 0

/-- The roster of the steal counterexample: runner 21 carries
`Blaserunning`. -/
def w4 : World :=
  { w0 with players := [(20, mkPlayer 20 "Ace" 100),
      (21, { mkPlayer 21 "Bo" 100 with
        mods := { mods := [{ lifetime := ModLifetime.Permanent, the_mod := Mod.Blaserunning }] } }),
      (31, mkPlayer 31 "Cy" 100), (40, mkPlayer 40 "Dee" 101),
      (41, mkPlayer 41 "Eli" 101), (30, mkPlayer 30 "Fay" 101)] }

/-- The match state of the steal counterexample: runner 21 on base 0,
both scores zero. -/
def g4 : Game :=
  { g0 with runners := { bases := 4, runners := [{ base := 0, id := 21 }] } }

/-- The match state of the event-log counterexample: one logged pitch. -/
def gC2 : Game :=
  { g0 with events := Events.mk ["Strike"] }

/-- A started match state whose out count has reached the per-inning
maximum. -/
def g7 : Game :=
  { g0 with outs := 3 }

/-- A started match state one ball into the count. -/
def g10 : Game :=
  { g0 with balls := 1 }

/-- The match state of the base-hit scenario: runner 1 ("A") on base 0 and
batter 2 ("B") at the plate. -/
def g9 : Game :=
  { g0 with
    runners := { bases := 4, runners := [{ base := 0, id := 1 }] },
    scoreboard := { g0.scoreboard with
      away_team := { g0.scoreboard.away_team with batter := some 2 } } }

/-
Theorems.
-/

/-- C1: the simulation is deterministic given the RNG seed — for every
initial match state and roster, two runs of the next/apply cycle driven by
identically seeded RNGs (modelled as equal draw streams) produce the
identical event sequence and identical final match/roster state. -/
theorem c1_seed_determinism (fd : Formulas) (n : Nat) (g : Game) (w : World)
    (r1 r2 : Rng) (h : r1 = r2) :
    simRun fd n g w r1 = simRun fd n g w r2 := by
  rw [h]

/-- C1 witness: the determinism law applied to the concrete three-pitch
scenario state. -/
theorem c1_seed_determinism_witness :
    simRun fd0 3 g0 w0 r0 = simRun fd0 3 g0 w0 r0 :=
  c1_seed_determinism fd0 3 g0 w0 r0 r0 rfl

/-- C2: evaluation of `Events::has` at the failing input.  Applying an
inning-switch event appends the boundary tag `"InningSwitch"`, yet
`has "Strike" 0` still finds the pre-boundary `"Strike"` because the
backward scan compares boundary entries against the unlogged spelling
`"inningSwitch"`; the spec-worded query (`hasSpec`) answers false. -/
theorem c2_boundary_limit_dead :
    ((Event.InningSwitch 1 false).apply gC2 w0).fst.events.events =
      ["Strike", "InningSwitch"]
    ∧ Events.has (Events.mk ["Strike", "InningSwitch"]) "Strike" 0 = true
    ∧ Events.hasSpec (Events.mk ["Strike", "InningSwitch"]) "Strike" 0 = false := by
  refine ⟨by decide, by decide, by decide⟩

/-- C3 counterexample: adding a modifier that is already present under a
different lifetime scope is not a no-op — the set ends with two entries for
the same modifier. -/
theorem c3_counterexample :
    (Mods.new.add Mod.Flinch ModLifetime.Game).has Mod.Flinch = true
    ∧ ((Mods.new.add Mod.Flinch ModLifetime.Game).add Mod.Flinch ModLifetime.Week ≠
        Mods.new.add Mod.Flinch ModLifetime.Game)
    ∧ (((Mods.new.add Mod.Flinch ModLifetime.Game).add Mod.Flinch ModLifetime.Week).mods.filter
        (fun x => x.the_mod == Mod.Flinch)).length = 2 := by
  refine ⟨by decide, by decide, by decide⟩

/-- `Mods.add` preserves entry distinctness. -/
theorem Mods.add_nodup (ms : Mods) (m : Mod) (l : ModLifetime)
    (h : ms.mods.Nodup) : ((ms.add m l).mods).Nodup := by
  by_cases hmem : ({ lifetime := l, the_mod := m } : ModWithLifetime) ∈ ms.mods
  · simpa [Mods.add, hmem] using h
  · have hap : ((ms.mods ++ [{ lifetime := l, the_mod := m }] : List ModWithLifetime)).Nodup := by
      refine List.Nodup.append h (List.nodup_singleton _) ?_
      intro x hx hx1
      rw [List.mem_singleton] at hx1
      exact hmem (hx1 ▸ hx)
    simpa [Mods.add, hmem] using hap

/-- Every `Mods` operation preserves entry distinctness. -/
theorem Mods.applyOp_nodup (ms : Mods) (op : ModOp)
    (h : ms.mods.Nodup) : ((ms.applyOp op).mods).Nodup := by
  cases op with
  | addOp m l => exact Mods.add_nodup ms m l h
  | removeOp m => exact h.filter _
  | clearGameOp => exact h.filter _
  | clearWeeklyOp => exact h.filter _
  | clearSeasonOp => exact h.filter _
  | clearItemOp => exact h.filter _

/-- Distinctness is preserved along any operation sequence. -/
theorem Mods.runOps_nodup (ops : List ModOp) :
    ∀ ms : Mods, ms.mods.Nodup → ((ms.runOps ops).mods).Nodup := by
  induction ops with
  | nil => intro ms h; exact h
  | cons op rest ih =>
    intro ms h
    exact ih _ (Mods.applyOp_nodup ms op h)

/-- C3 (amended): in every Modifier Set reachable by add/remove/scope-clear
sequences there is at most one entry per (modifier, lifetime) pair — the
duplicate check of `add` compares both fields, so re-adding the same pair
is a no-op while the same modifier under a different scope is a second
entry; `remove` drops every scoped entry of the modifier. -/
theorem c3_per_scope_uniqueness :
    (∀ ops : List ModOp, ((Mods.new.runOps ops).mods).Nodup)
    ∧ (∀ (ms : Mods) (m : Mod) (l : ModLifetime), (ms.add m l).add m l = ms.add m l)
    ∧ (∀ (ms : Mods) (m : Mod), (ms.remove m).has m = false) := by
  refine ⟨?_, ?_, ?_⟩
  · intro ops
    exact Mods.runOps_nodup ops Mods.new List.nodup_nil
  · intro ms m l
    by_cases hmem : ({ lifetime := l, the_mod := m } : ModWithLifetime) ∈ ms.mods
    · simp [Mods.add, hmem]
    · simp [Mods.add, hmem]
  · intro ms m
    simp [Mods.has, Mods.remove, List.any_eq_true, List.mem_filter]

/-- C8 counterexample: from the fresh at-bat of `g0` (0-0 count, 3-strike
threshold, no count-altering modifiers), three consecutive pitches that all
resolve as swinging strikes do not produce three `Strike` events — the
third already ends the at-bat, so no fourth-strike pitch exists. -/
theorem c8_counterexample :
    (simRun fd0 3 g0 w0 r0).fst ≠ [Event.Strike, Event.Strike, Event.Strike]
    ∧ (simRun fd0 3 g0 w0 r0).fst.getLast? = some Event.Strikeout := by
  have h : (simRun fd0 3 g0 w0 r0).fst = [Event.Strike, Event.Strike, Event.Strikeout] := rfl
  refine ⟨?_, ?_⟩
  · rw [h]
    intro hc
    injection hc with h1 hc
    injection hc with h2 hc
    injection hc with h3 hc
    exact Event.noConfusion h3
  · rw [h]
    rfl

/-- C8 (amended): in that scenario the produced sequence is `Strike`,
`Strike`, `Strikeout` — the strikeout fires on the third strike, the
would-be third `Strike` event. -/
theorem c8_third_strike_is_strikeout :
    (simRun fd0 3 g0 w0 r0).fst = [Event.Strike, Event.Strike, Event.Strikeout] := rfl

theorem updBatting_events (g : Game) (f : GameTeam → GameTeam) :
    (g.updBatting f).events = g.events := rfl

theorem updPitching_events (g : Game) (f : GameTeam → GameTeam) :
    (g.updPitching f).events = g.events := rfl

theorem updHome_events (g : Game) (f : GameTeam → GameTeam) :
    (g.updHome f).events = g.events := rfl

theorem updAway_events (g : Game) (f : GameTeam → GameTeam) :
    (g.updAway f).events = g.events := rfl

theorem assign_batter_events (g : Game) (id : Nat) :
    (g.assign_batter id).events = g.events := rfl

theorem assign_pitcher_events (g : Game) (id : Nat) :
    (g.assign_pitcher id).events = g.events := rfl

theorem end_pa_events (g : Game) : (g.end_pa).events = g.events := rfl

theorem update_multiplier_data_events (g : Game) (w : World) :
    (g.update_multiplier_data w).events = g.events := rfl

theorem base_sweep_events (g : Game) (w : World) :
    (g.base_sweep w).events = g.events := rfl

theorem score_events (g : Game) (w : World) : (g.score w).events = g.events := by
  simp only [Game.score]
  split <;> rfl

theorem foldl_events {α : Type} (f : Game → α → Game)
    (hf : ∀ g a, (f g a).events = g.events) :
    ∀ (l : List α) (g : Game), (l.foldl f g).events = g.events := by
  intro l
  induction l with
  | nil => intro g; rfl
  | cons a t ih =>
    intro g
    rw [List.foldl_cons, ih, hf]

set_option maxHeartbeats 3200000 in
/-- The event-specific mutation never touches the Event Log: the only
append in `Event::apply` is the shared one before the dispatch. -/
theorem applyInner_events (e : Event) (g : Game) (w : World) :
    (Event.applyInner e g w).fst.events = g.events := by
  cases e <;>
    simp only [Event.applyInner, end_pa_events, base_sweep_events, score_events,
      updBatting_events, updPitching_events, updHome_events, updAway_events,
      assign_batter_events, assign_pitcher_events]
  all_goals try rfl
  all_goals try (split <;> rfl)
  all_goals try ((repeat' split) <;> rfl)
  case Swept elsewhere =>
    rw [foldl_events]
    intro g1 a
    split <;> rfl
  case HomeRun =>
    rw [apply_ite (fun x : Game => x.events)]
    simp [score_events, base_sweep_events, end_pa_events, updBatting_events]
  case MagmaticHomeRun =>
    rw [apply_ite (fun x : Game => x.events)]
    simp [score_events, base_sweep_events, end_pa_events, updBatting_events]

/-- C5: one `apply` call grows the Event Log by exactly one entry, equal to
the applied event's tag, for every event and every match state; applies
never remove or reorder existing entries — the new log is the old log with
the tag appended. -/
theorem c5_log_grows_by_one_tag (e : Event) (g : Game) (w : World) :
    ((e.apply g w).fst.events).events = g.events.events ++ [e.repr] := by
  unfold Event.apply
  simp only [update_multiplier_data_events]
  rw [applyInner_events]
  rfl

/-- When no runner stands past the last base, the scoring routine is the
identity. -/
theorem score_no_runs (g : Game) (w : World)
    (h : ∀ br ∈ g.runners.runners, br.base < g.get_bases w) :
    g.score w = g := by
  unfold Game.score
  have h1 : g.runners.runners.filter (fun r => decide (g.get_bases w ≤ r.base)) = [] := by
    rw [List.filter_eq_nil]
    intro a ha
    simp only [decide_eq_true_eq, not_le]
    exact h a ha
  have h2 : g.runners.runners.filter (fun r => decide (r.base < g.get_bases w)) =
      g.runners.runners := by
    rw [List.filter_eq_self]
    intro a ha
    exact decide_eq_true (h a ha)
  simp [h1, h2]

/-- When no runner stands past the last base, the compaction pass is the
identity. -/
theorem base_sweep_no_overflow (g : Game) (w : World)
    (h : ∀ br ∈ g.runners.runners, br.base < g.get_bases w) :
    g.base_sweep w = g := by
  unfold Game.base_sweep
  have h2 : g.runners.runners.filter (fun r => decide (r.base < g.get_bases w)) =
      g.runners.runners := by
    rw [List.filter_eq_self]
    intro a ha
    exact decide_eq_true (h a ha)
  simp [h2]

/-- C4 counterexample: applying a steal event can change the batting
team's score — with Blaserunning runner 21 stealing from base 0, the away
score moves from 0 to 0.2 (and the shared scoring routine is not
bypassed). -/
theorem c4_counterexample :
    ((Event.BaseSteal 21 0 1).apply g4 w4).fst.scoreboard.away_team.score ≠
      g4.scoreboard.away_team.score := by
  decide

/-- C4 (amended): applying a caught-stealing event removes exactly the
runner's base slot, adds an out and leaves both scores unchanged; applying
a steal event advances exactly the one runner at `base_from` by one base
and — because it invokes the shared scoring routine rather than bypassing
it — leaves the scores unchanged only when the stealing runner has no
Blaserunning modifier and nobody advances past the last base. -/
theorem c4_direct_baserunning (g : Game) (w : World) (runner bf bto : Nat)
    (hmod : (w.player runner).mods.has Mod.Blaserunning = false)
    (hsafe : ∀ br ∈ (g.runners.advance bf).runners, br.base < g.get_bases w) :
    (((Event.BaseSteal runner bf bto).apply g w).fst.runners = g.runners.advance bf
      ∧ ((Event.BaseSteal runner bf bto).apply g w).fst.scoreboard.home_team.score
          = g.scoreboard.home_team.score
      ∧ ((Event.BaseSteal runner bf bto).apply g w).fst.scoreboard.away_team.score
          = g.scoreboard.away_team.score)
    ∧ (((Event.CaughtStealing runner bf).apply g w).fst.runners = g.runners.removeR bf
      ∧ ((Event.CaughtStealing runner bf).apply g w).fst.outs = g.outs + 1
      ∧ ((Event.CaughtStealing runner bf).apply g w).fst.scoreboard.home_team.score
          = g.scoreboard.home_team.score
      ∧ ((Event.CaughtStealing runner bf).apply g w).fst.scoreboard.away_team.score
          = g.scoreboard.away_team.score) := by
  constructor
  · simp only [Event.apply, Event.applyInner, hmod, Bool.false_eq_true, if_false]
    rw [score_no_runs _ _ (by exact hsafe), base_sweep_no_overflow _ _ (by exact hsafe)]
    exact ⟨rfl, rfl, rfl⟩
  · simp only [Event.apply, Event.applyInner]
    exact ⟨rfl, rfl, rfl, rfl⟩

/-- C4 witness: the amended statement at the concrete state where runner 21
(a player without Blaserunning) steals second. -/
theorem c4_direct_baserunning_witness :
    (((Event.BaseSteal 21 0 1).apply g4 w0).fst.runners = g4.runners.advance 0
      ∧ ((Event.BaseSteal 21 0 1).apply g4 w0).fst.scoreboard.home_team.score
          = g4.scoreboard.home_team.score
      ∧ ((Event.BaseSteal 21 0 1).apply g4 w0).fst.scoreboard.away_team.score
          = g4.scoreboard.away_team.score)
    ∧ (((Event.CaughtStealing 21 0).apply g4 w0).fst.runners = g4.runners.removeR 0
      ∧ ((Event.CaughtStealing 21 0).apply g4 w0).fst.outs = g4.outs + 1
      ∧ ((Event.CaughtStealing 21 0).apply g4 w0).fst.scoreboard.home_team.score
          = g4.scoreboard.home_team.score
      ∧ ((Event.CaughtStealing 21 0).apply g4 w0).fst.scoreboard.away_team.score
          = g4.scoreboard.away_team.score) :=
  c4_direct_baserunning g4 w0 21 0 1 (by decide) (by decide)

theorem updPlayer_team (w : World) (pid : Nat) (f : Player → Player) (id : Nat) :
    (w.updPlayer pid f).team id = w.team id := rfl

theorem feedAdd_team (w : World) (pid : Nat) (s : String) (id : Nat) :
    (w.feedAdd pid s).team id = w.team id := rfl

theorem upgrade_spicy_team (g : Game) (w : World) (id : Nat) :
    (upgrade_spicy g w).team id = w.team id := by
  simp only [upgrade_spicy]
  split
  · exact updPlayer_team w _ _ id
  · split
    · exact updPlayer_team w _ _ id
    · rfl

/-- C9: applying a base-hit event reproduces its precomputed after-state
verbatim — whatever the runner occupancy at application time, a one-base
hit event whose `runners_after` places runner 1 ("A") at base 1 leaves "A"
at base 1 and the batter 2 ("B") at base 0; the conclusion does not depend
on the match state's runners, so apply never recomputes advancement. -/
theorem c9_basehit_verbatim (g : Game) (w : World) (hb : g.batter = some 2) :
    (((Event.BaseHit 1 (Baserunners.mk 4 [Runner.mk 1 1])).apply g w).fst.runners).at 1 = some 1
    ∧ (((Event.BaseHit 1 (Baserunners.mk 4 [Runner.mk 1 1])).apply g w).fst.runners).at 0 = some 2
    ∧ (((Event.BaseHit 1 (Baserunners.mk 4 [Runner.mk 1 1])).apply g w).fst.runners).lenR = 2 := by
  have key : (((Event.BaseHit 1 (Baserunners.mk 4 [Runner.mk 1 1])).apply g w).fst.runners)
      = Baserunners.mk 4 [Runner.mk 1 1, Runner.mk 0 2] := by
    by_cases h5 : (w.team g.scoreboard.batting_team.id).mods.has Mod.FifthBase
    · simp [Event.apply, Event.applyInner, hb, Game.score, Game.base_sweep,
        Game.get_bases, Game.end_pa, Game.update_multiplier_data, Game.updBatting,
        Scoreboard.updBatting, Baserunners.addR, upgrade_spicy_team, feedAdd_team,
        updPlayer_team, h5, apply_ite (fun x : Game => x.runners)]
      show g.batter.getD 0 = 2
      rw [hb]
      rfl
    · simp [Event.apply, Event.applyInner, hb, Game.score, Game.base_sweep,
        Game.get_bases, Game.end_pa, Game.update_multiplier_data, Game.updBatting,
        Scoreboard.updBatting, Baserunners.addR, upgrade_spicy_team, feedAdd_team,
        updPlayer_team, h5, apply_ite (fun x : Game => x.runners)]
      show g.batter.getD 0 = 2
      rw [hb]
      rfl
  rw [key]
  exact ⟨rfl, rfl, rfl⟩

/-- C9 witness: the scenario state `g9` (runner "A" on base 0, batter "B")
reproduces the event's after-state exactly. -/
theorem c9_basehit_verbatim_witness :
    (((Event.BaseHit 1 (Baserunners.mk 4 [Runner.mk 1 1])).apply g9 w0).fst.runners).at 1 = some 1
    ∧ (((Event.BaseHit 1 (Baserunners.mk 4 [Runner.mk 1 1])).apply g9 w0).fst.runners).at 0 = some 2
    ∧ (((Event.BaseHit 1 (Baserunners.mk 4 [Runner.mk 1 1])).apply g9 w0).fst.runners).lenR = 2 :=
  c9_basehit_verbatim g9 w0 rfl

/-- C6: in the pitch decision tree, for a non-flinching batter whose pitch
swings (draw at position 1 under the swing threshold), makes contact (draw
at position 2 at-or-above the contact threshold is false — i.e. contact
holds) and stays fair (foul draw at position 3 at-or-above the foul
threshold), the branch after the first defender-selection draw (position 4)
is the out family exactly when the out draw (position 5) strictly exceeds
the out threshold, and the hit family exactly when it does not. -/
theorem c6_out_branch_inversion (fd : Formulas) (g : Game) (w : World) (r : Rng)
    (hf : (w.player ((g.batter).getD 0)).mods.has Mod.Flinch = false)
    (hswing : r.floats (r.pos + 1) < fd.swing_threshold (w.player g.pitcher)
      (w.player ((g.batter).getD 0))
      (decide (r.floats r.pos < fd.strike_threshold (w.player g.pitcher)
        (w.player ((g.batter).getD 0)) false w.season_ruleset (g.compute_multiplier_data w)))
      w.season_ruleset (g.compute_multiplier_data w))
    (hcontact : r.floats (r.pos + 2) < fd.contact_threshold (w.player g.pitcher)
      (w.player ((g.batter).getD 0))
      (decide (r.floats r.pos < fd.strike_threshold (w.player g.pitcher)
        (w.player ((g.batter).getD 0)) false w.season_ruleset (g.compute_multiplier_data w)))
      w.season_ruleset (g.compute_multiplier_data w))
    (hfoul : ¬(r.floats (r.pos + 3) < fd.foul_threshold (w.player g.pitcher)
      (w.player ((g.batter).getD 0)) w.season_ruleset (g.compute_multiplier_data w))) :
    outKind (do_pitch fd g w r).fst = decide (r.floats (r.pos + 5) >
      fd.out_threshold (w.player g.pitcher) (w.player ((g.batter).getD 0))
        (w.player (g.pick_fielder w (r.floats (r.pos + 4)))) w.season_ruleset
        (g.compute_multiplier_data w))
    ∧ hitKind (do_pitch fd g w r).fst = !(decide (r.floats (r.pos + 5) >
      fd.out_threshold (w.player g.pitcher) (w.player ((g.batter).getD 0))
        (w.player (g.pick_fielder w (r.floats (r.pos + 4)))) w.season_ruleset
        (g.compute_multiplier_data w))) := by
  simp only [do_pitch, Rng.next, hf, Bool.and_false, Bool.not_false, if_true,
    Nat.add_assoc, Nat.reduceAdd, hswing, hcontact, decide_True, Bool.not_true,
    Bool.false_eq_true, if_false]
  simp only [hfoul, decide_False, Bool.false_eq_true, if_false]
  constructor
  · split
    · next h => rw [h]; (repeat' split) <;> rfl
    · next h =>
      rw [Bool.not_eq_true] at h
      rw [h]
      (repeat' split) <;> rfl
  · split
    · next h => rw [h]; (repeat' split) <;> rfl
    · next h =>
      rw [Bool.not_eq_true] at h
      rw [h]
      (repeat' split) <;> rfl

/-- C6 witness: the inversion at the concrete state `g0`/`w0` with the
constant formula instantiation and the stream `rC6`. -/
theorem c6_out_branch_inversion_witness :
    outKind (do_pitch fd0 g0 w0 rC6).fst = decide (rC6.floats (rC6.pos + 5) >
      fd0.out_threshold (w0.player g0.pitcher) (w0.player ((g0.batter).getD 0))
        (w0.player (g0.pick_fielder w0 (rC6.floats (rC6.pos + 4)))) w0.season_ruleset
        (g0.compute_multiplier_data w0))
    ∧ hitKind (do_pitch fd0 g0 w0 rC6).fst = !(decide (rC6.floats (rC6.pos + 5) >
      fd0.out_threshold (w0.player g0.pitcher) (w0.player ((g0.batter).getD 0))
        (w0.player (g0.pick_fielder w0 (rC6.floats (rC6.pos + 4)))) w0.season_ruleset
        (g0.compute_multiplier_data w0))) :=
  c6_out_branch_inversion fd0 g0 w0 rC6 (by decide) (by decide) (by decide) (by decide)

/-- One step of the first-some-wins plugin loop. -/
theorem runPlugins_cons (fd : Formulas) (g : Game) (w : World) (p : PluginTick)
    (ps : List PluginTick) (r : Rng) :
    runPlugins fd g w (p :: ps) r =
      match p fd g w r with
      | (some e, r1) => (some e, r1)
      | (none, r1) => runPlugins fd g w ps r1 := rfl

/-- C7: for every started match state whose out count has reached the
per-inning maximum of three, the very next event produced by the plugin
chain is an inning switch or a match-over event. -/
theorem c7_three_outs_boundary (fd : Formulas) (g : Game) (w : World) (r : Rng)
    (hs : g.started = true) (ho : 3 ≤ g.outs) :
    optBoundary (Sim.next fd g w r).fst = true := by
  have hp : PregamePlugin.tick fd g w r = (none, r) := by
    simp [PregamePlugin.tick, hs]
  have hi : optBoundary (InningStatePlugin.tick fd g w r).fst = true := by
    simp only [InningStatePlugin.tick]
    rw [if_neg (by omega : ¬(g.outs < 3))]
    (repeat' split) <;> rfl
  unfold Sim.next Sim.plugins
  simp only [runPlugins_cons, hp]
  rcases hI : InningStatePlugin.tick fd g w r with ⟨oe, r1⟩
  rw [hI] at hi
  cases oe with
  | none => simp [optBoundary] at hi
  | some e => simpa using hi

/-- C7 witness: from the concrete started state with three outs, the chain
produces a boundary event. -/
theorem c7_three_outs_boundary_witness :
    optBoundary (Sim.next fd0 g7 w0 r0).fst = true :=
  c7_three_outs_boundary fd0 g7 w0 r0 rfl (by decide)

theorem nocharm_firstSome (x : Option Event × Rng) (k : Rng → Option Event × Rng)
    (hx : optCharm x.fst = false) (hk : ∀ r, optCharm (k r).fst = false) :
    optCharm (firstSome x k).fst = false := by
  rcases x with ⟨oe, r1⟩
  cases oe with
  | none => exact hk r1
  | some e => simpa [firstSome] using hx

theorem nocharm_pregame (fd : Formulas) (g : Game) (w : World) (r : Rng) :
    optCharm (PregamePlugin.tick fd g w r).fst = false := by
  simp only [PregamePlugin.tick]
  (repeat' split) <;> rfl

theorem nocharm_inningState (fd : Formulas) (g : Game) (w : World) (r : Rng) :
    optCharm (InningStatePlugin.tick fd g w r).fst = false := by
  simp only [InningStatePlugin.tick]
  (repeat' split) <;> rfl

theorem nocharm_salmon (g : Game) (w : World) (r : Rng) :
    optCharm (InningEventPlugin.salmon g w r).fst = false := by
  simp only [InningEventPlugin.salmon, Rng.next]
  (repeat' split) <;> rfl

theorem nocharm_inningEvent (fd : Formulas) (g : Game) (w : World) (r : Rng) :
    optCharm (InningEventPlugin.tick fd g w r).fst = false := by
  simp only [InningEventPlugin.tick, Rng.next]
  (repeat' split) <;> first
    | rfl
    | exact nocharm_salmon g w _

theorem nocharm_batterSelect (g : Game) (w : World) (r : Rng) :
    optCharm (BatterStatePlugin.tickSelect g w r).fst = false := by
  simp only [BatterStatePlugin.tickSelect, Rng.next]
  (repeat' split) <;> rfl

theorem nocharm_batterRest (g : Game) (w : World) (prev : Nat) (fb ib : Bool) (r : Rng) :
    optCharm (BatterStatePlugin.tickRest g w prev fb ib r).fst = false := by
  simp only [BatterStatePlugin.tickRest]
  (repeat' split) <;> first
    | rfl
    | exact nocharm_batterSelect g w _

theorem nocharm_batterState (fd : Formulas) (g : Game) (w : World) (r : Rng) :
    optCharm (BatterStatePlugin.tick fd g w r).fst = false := by
  simp only [BatterStatePlugin.tick, Rng.next]
  (repeat' split) <;> first
    | rfl
    | exact nocharm_batterRest g w _ _ _ _

theorem nocharm_fireEaterLoop (l : List Nat) :
    ∀ r : Rng, optCharm (WeatherPlugin.fireEaterLoop l r).fst = false := by
  induction l with
  | nil => intro r; rfl
  | cons a t ih =>
    intro r
    simp only [WeatherPlugin.fireEaterLoop, Rng.next]
    split
    · rfl
    · exact ih _

theorem nocharm_eclipseIncinerate (g : Game) (w : World) (t : Nat) (u : Bool) (r : Rng) :
    optCharm (WeatherPlugin.eclipseIncinerate g w t u r).fst = false := rfl

theorem nocharm_eclipseRest (g : Game) (w : World) (q : ℚ) (r : Rng) :
    optCharm (WeatherPlugin.eclipseRest g w q r).fst = false := by
  simp only [WeatherPlugin.eclipseRest, Rng.next]
  (repeat' split) <;> first
    | rfl
    | exact nocharm_eclipseIncinerate g w _ _ _

theorem nocharm_eclipse (g : Game) (w : World) (r : Rng) :
    optCharm (WeatherPlugin.eclipse g w r).fst = false := by
  simp only [WeatherPlugin.eclipse, Rng.next]
  exact nocharm_firstSome _ _ (nocharm_fireEaterLoop _ _) (nocharm_eclipseRest g w _)

theorem nocharm_peanutsPitcher (g : Game) (w : World) (r : Rng) :
    optCharm (WeatherPlugin.peanutsPitcher g w r).fst = false := by
  simp only [WeatherPlugin.peanutsPitcher, Rng.next]
  (repeat' split) <;> rfl

theorem nocharm_peanuts (g : Game) (w : World) (r : Rng) :
    optCharm (WeatherPlugin.peanuts g w r).fst = false := by
  simp only [WeatherPlugin.peanuts, Rng.next]
  (repeat' split) <;> first
    | rfl
    | exact nocharm_peanutsPitcher g w _

theorem nocharm_birdsLoop (w : World) (l : List Nat) :
    ∀ r : Rng, optCharm (WeatherPlugin.birdsLoop w l r).fst = false := by
  induction l with
  | nil => intro r; rfl
  | cons a t ih =>
    intro r
    simp only [WeatherPlugin.birdsLoop, Rng.next]
    split
    · rfl
    · exact ih _

theorem nocharm_birds (g : Game) (w : World) (r : Rng) :
    optCharm (WeatherPlugin.birds g w r).fst = false := by
  simp only [WeatherPlugin.birds, Rng.next]
  split
  · rfl
  · exact nocharm_birdsLoop w _ _

theorem nocharm_feedbackFinish (w : World) (t1 t2 : Nat) (r : Rng) :
    optCharm (WeatherPlugin.feedbackFinish w t1 t2 r).fst = false := by
  simp only [WeatherPlugin.feedbackFinish]
  (repeat' split) <;> rfl

theorem nocharm_feedback (g : Game) (w : World) (r : Rng) :
    optCharm (WeatherPlugin.feedback g w r).fst = false := by
  simp only [WeatherPlugin.feedback, Rng.next]
  (repeat' split) <;> first
    | rfl
    | exact nocharm_feedbackFinish w _ _ _

theorem nocharm_reverb (g : Game) (w : World) (r : Rng) :
    optCharm (WeatherPlugin.reverb g w r).fst = false := by
  simp only [WeatherPlugin.reverb, Rng.next]
  (repeat' split) <;> rfl

theorem nocharm_blooddrain (g : Game) (w : World) (r : Rng) :
    optCharm (WeatherPlugin.blooddrain g w r).fst = false := by
  simp only [WeatherPlugin.blooddrain, Rng.next]
  (repeat' split) <;> rfl

theorem nocharm_night (g : Game) (w : World) (r : Rng) :
    optCharm (WeatherPlugin.night g w r).fst = false := by
  simp only [WeatherPlugin.night, Rng.next]
  (repeat' split) <;> rfl

theorem nocharm_weather (fd : Formulas) (g : Game) (w : World) (r : Rng) :
    optCharm (WeatherPlugin.tick fd g w r).fst = false := by
  simp only [WeatherPlugin.tick]
  cases g.weather
  case Eclipse => exact nocharm_eclipse g w r
  case Peanuts => exact nocharm_peanuts g w r
  case Birds => exact nocharm_birds g w r
  case Feedback => exact nocharm_feedback g w r
  case Reverb => exact nocharm_reverb g w r
  case Blooddrain => exact nocharm_blooddrain g w r
  case Night => exact nocharm_night g w r
  all_goals simp only [Rng.next] <;> (repeat' split) <;> rfl

set_option maxHeartbeats 3200000 in
theorem nocharm_elsewhere (fd : Formulas) (g : Game) (w : World) (r : Rng) :
    optCharm (ElsewherePlugin.tick fd g w r).fst = false := by
  simp only [ElsewherePlugin.tick]
  (repeat' split) <;> rfl

theorem nocharm_party (fd : Formulas) (g : Game) (w : World) (r : Rng) :
    optCharm (PartyPlugin.tick fd g w r).fst = false := by
  simp only [PartyPlugin.tick, Rng.next, Rng.index]
  (repeat' split) <;> rfl

theorem nocharm_flooding (fd : Formulas) (g : Game) (w : World) (r : Rng) :
    optCharm (FloodingPlugin.tick fd g w r).fst = false := by
  simp only [FloodingPlugin.tick, Rng.next]
  (repeat' split) <;> rfl

theorem nocharm_modMild (g : Game) (w : World) (r : Rng)
    (h : ¬(g.balls = 0 ∧ g.strikes = 0)) :
    optCharm (ModPlugin.tickMild g w r).fst = false := by
  simp only [ModPlugin.tickMild, Rng.next]
  (repeat' split) <;> first
    | rfl
    | exact absurd (by assumption) h

theorem nocharm_modCrows (g : Game) (w : World) (r : Rng)
    (h : ¬(g.balls = 0 ∧ g.strikes = 0)) :
    optCharm (ModPlugin.tickCrows g w r).fst = false := by
  simp only [ModPlugin.tickCrows, Rng.next]
  (repeat' split) <;> first
    | rfl
    | exact nocharm_modMild g w _ h

theorem nocharm_modDebt3 (g : Game) (w : World) (r : Rng)
    (h : ¬(g.balls = 0 ∧ g.strikes = 0)) :
    optCharm (ModPlugin.tickDebt3 g w r).fst = false := by
  simp only [ModPlugin.tickDebt3, Rng.next]
  (repeat' split) <;> first
    | rfl
    | exact nocharm_modCrows g w _ h

theorem nocharm_modDebt2 (g : Game) (w : World) (r : Rng)
    (h : ¬(g.balls = 0 ∧ g.strikes = 0)) :
    optCharm (ModPlugin.tickDebt2 g w r).fst = false := by
  simp only [ModPlugin.tickDebt2, Rng.next]
  (repeat' split) <;> first
    | rfl
    | exact nocharm_modDebt3 g w _ h

theorem nocharm_modDebt1 (g : Game) (w : World) (r : Rng)
    (h : ¬(g.balls = 0 ∧ g.strikes = 0)) :
    optCharm (ModPlugin.tickDebt1 g w r).fst = false := by
  simp only [ModPlugin.tickDebt1, Rng.next]
  (repeat' split) <;> first
    | rfl
    | exact nocharm_modDebt2 g w _ h

theorem nocharm_modZap2 (g : Game) (w : World) (r : Rng)
    (h : ¬(g.balls = 0 ∧ g.strikes = 0)) :
    optCharm (ModPlugin.tickZap2 g w r).fst = false := by
  simp only [ModPlugin.tickZap2, Rng.next]
  (repeat' split) <;> first
    | rfl
    | exact nocharm_modDebt1 g w _ h

theorem nocharm_mod (fd : Formulas) (g : Game) (w : World) (r : Rng)
    (h : ¬(g.balls = 0 ∧ g.strikes = 0)) :
    optCharm (ModPlugin.tick fd g w r).fst = false := by
  simp only [ModPlugin.tick, Rng.next]
  (repeat' split) <;> first
    | rfl
    | exact nocharm_modZap2 g w _ h

theorem nocharm_stealLoop (fd : Formulas) (g : Game) (w : World) (sd : Player)
    (l : List Nat) : ∀ r : Rng, optCharm (StealingPlugin.stealLoop fd g w sd l r).fst = false := by
  induction l with
  | nil => intro r; rfl
  | cons a t ih =>
    intro r
    simp only [StealingPlugin.stealLoop, Rng.next]
    (repeat' split) <;> first
      | rfl
      | exact ih _

theorem nocharm_stealing (fd : Formulas) (g : Game) (w : World) (r : Rng) :
    optCharm (StealingPlugin.tick fd g w r).fst = false := by
  simp only [StealingPlugin.tick, Rng.next]
  exact nocharm_stealLoop fd g w _ _ _

theorem nocharm_base (fd : Formulas) (g : Game) (w : World) (r : Rng) :
    optCharm (BasePlugin.tick fd g w r).fst = false := by
  rcases hdp : do_pitch fd g w r with ⟨po, r1⟩
  simp only [BasePlugin.tick, hdp, Rng.next]
  cases po <;> (repeat' split) <;> rfl

theorem runPlugins_nocharm (fd : Formulas) (g : Game) (w : World) (ps : List PluginTick)
    (hps : ∀ p ∈ ps, ∀ r : Rng, optCharm (p fd g w r).fst = false) :
    ∀ r : Rng, optCharm (runPlugins fd g w ps r).fst = false := by
  induction ps with
  | nil => intro r; rfl
  | cons p ps ih =>
    intro r
    rw [runPlugins_cons]
    rcases hp : p fd g w r with ⟨oe, r1⟩
    have h1 := hps p (List.mem_cons_self p ps) r
    rw [hp] at h1
    cases oe with
    | some e => simpa using h1
    | none => exact ih (fun q hq => hps q (List.mem_cons_of_mem p hq)) r1

/-- C10: the modifier-triggered provider emits a charm walk, charm
strikeout or magmatic home run only on a clean 0-0 count — for every match
state with balls > 0 or strikes > 0, the whole plugin chain never produces
any of these three events. -/
theorem c10_charm_magmatic_clean_count_only (fd : Formulas) (g : Game) (w : World)
    (r : Rng) (h : 0 < g.balls ∨ 0 < g.strikes) :
    optCharm (Sim.next fd g w r).fst = false := by
  have hcount : ¬(g.balls = 0 ∧ g.strikes = 0) := by omega
  unfold Sim.next
  refine runPlugins_nocharm fd g w Sim.plugins ?_ r
  intro p hp
  simp only [Sim.plugins, List.mem_cons, List.not_mem_nil, or_false] at hp
  rcases hp with h1 | h1 | h1 | h1 | h1 | h1 | h1 | h1 | h1 | h1 | h1 <;> subst h1
  · exact fun r => nocharm_pregame fd g w r
  · exact fun r => nocharm_inningState fd g w r
  · exact fun r => nocharm_inningEvent fd g w r
  · exact fun r => nocharm_batterState fd g w r
  · exact fun r => nocharm_weather fd g w r
  · exact fun r => nocharm_elsewhere fd g w r
  · exact fun r => nocharm_party fd g w r
  · exact fun r => nocharm_flooding fd g w r
  · exact fun r => nocharm_mod fd g w r hcount
  · exact fun r => nocharm_stealing fd g w r
  · exact fun r => nocharm_base fd g w r

/-- C10 witness: from the concrete one-ball state, the chain's next event
is not one of the three clean-count modifier events. -/
theorem c10_charm_magmatic_clean_count_only_witness :
    optCharm (Sim.next fd0 g10 w0 r0).fst = false :=
  c10_charm_magmatic_clean_count_only fd0 g10 w0 r0 (Or.inl (by decide))

end Sandbox
